import Mathlib

/-!
Verification development for the KTX2 validator core of RasterGrid/KTX-Software.

The repository contains two generations of the validator:

* the current core (`ValidationContext` in the new tools `validate.cpp`,
  referred to below as the `ktx` pipeline): header validation, index
  validation and key/value-data (KVD) validation over a bounded memory
  buffer;
* the legacy core (`src/tools/ktx/validate.cpp`, referred to below as the
  `legacy` pipeline): header validation only, with a slightly different
  byte reader and vkFormat classification.

Both are shallowly embedded below over the same `ValidationContext` state:
a byte buffer (`List Nat`, one `Nat` per byte), a cursor, the two
diagnostic counters, the `treatWarningsAsError` flag and the list of
reports delivered to the sink, in order.  A fatal diagnostic aborts the
run; this is modelled with `Except ValidationContext`, the thrown state
carrying the reports delivered so far (the C++ delivers the fatal report
to the callback *before* throwing `FatalValidationError`).

Machine integers are modelled as `Nat`; the only place where 32-bit
wrap-around matters is the mip-level shift `(uint32_t)1 << (levelCount-1)`
(reduced modulo `2^32`; the C++ expression is undefined behaviour for
shift counts of 32 or more) and the signed reinterpretation of `vkFormat`
in the current header validator (modelled explicitly as an `Int`).

Rendered detail strings of reports are modelled by concatenating the
decimal renderings of the format arguments; human-readable enum-value
rendering (`toStringVkFormat`, an external collaborator) is modelled by
the decimal value of the enum.
-/

namespace ktx

/-- Severity of an issue, mirroring `IssueType` of validation_messages.h. -/
inductive IssueType : Type where
  | warning : IssueType
  | error : IssueType
  | fatal : IssueType
deriving Repr, DecidableEq

/-- Catalog entry, mirroring `Issue` of validation_messages.h (the
`detailsFmt` template is not modelled; details are bound at emission). -/
structure Issue where
  type : IssueType
  id : Nat
  message : String
deriving Repr, DecidableEq

/-- Report delivered to the sink, mirroring `ValidationReport` of
validate.h: severity, stable numeric id, short message and the rendered
details string. -/
structure ValidationReport where
  type : IssueType
  id : Nat
  message : String
  details : String
deriving Repr, DecidableEq

/-- Counts the reports of the given id in a report list. -/
def countId (n : Nat) (rs : List ValidationReport) : Nat :=
  rs.countP (fun r => r.id == n)

/-- Counts the reports whose severity is error or fatal. -/
def countErrors (rs : List ValidationReport) : Nat :=
  rs.countP (fun r => r.type == IssueType.error || r.type == IssueType.fatal)

/-- Counts the reports whose severity is warning. -/
def countWarnings (rs : List ValidationReport) : Nat :=
  rs.countP (fun r => r.type == IssueType.warning)

/-- Re-stamps a warning report to error severity, leaving id, message and
details unchanged; non-warning reports are unchanged.  This captures what
the sink's `warning` function does when `treatWarningsAsError` is set. -/
def restampWarning (r : ValidationReport) : ValidationReport :=
  if r.type = IssueType.warning then { r with type := IssueType.error } else r

end ktx

-- ---------------------------------------------------------------------------
-- Issue catalog (validation_messages.h, current version; only the issues
-- reachable from the active validator code are embedded).
-- ---------------------------------------------------------------------------

namespace ktx

def IOError.FileRead : Issue := ⟨IssueType.fatal, 1002, "Failed to read the file."⟩
def IOError.UnexpectedEOF : Issue := ⟨IssueType.fatal, 1003, "Unexpected end of file."⟩
def IOError.UnexpectedEOFSeek : Issue :=
  ⟨IssueType.fatal, 1007, "Unexpected end of file. Requested seek position is not in the file."⟩

def FileError.NotKTX2 : Issue := ⟨IssueType.fatal, 2001, "Not a KTX2 file."⟩

def HeaderData.ProhibitedFormat : Issue := ⟨IssueType.error, 3001, "Prohibited VkFormat."⟩
def HeaderData.InvalidFormat : Issue := ⟨IssueType.error, 3002, "Invalid VkFormat."⟩
def HeaderData.UnknownFormat : Issue :=
  ⟨IssueType.warning, 3003, "Unknown VkFormat. Possibly an extension format."⟩
def HeaderData.VkFormatAndBasis : Issue :=
  ⟨IssueType.error, 3004, "Invalid VkFormat. VkFormat must be VK_FORMAT_UNDEFINED for BASIS_LZ supercompression."⟩
def HeaderData.TypeSizeNotOne : Issue :=
  ⟨IssueType.error, 3005, "Invalid typeSize. typeSize must be 1 for block-compressed or supercompressed formats."⟩
def HeaderData.WidthZero : Issue :=
  ⟨IssueType.error, 3006, "Invalid pixelWidth. pixelWidth cannot be 0."⟩
def HeaderData.BlockCompressedNoHeight : Issue :=
  ⟨IssueType.error, 3007, "Invalid pixelHeight. pixelHeight cannot be 0 for a block compressed formats."⟩
def HeaderData.CubeHeightWidthMismatch : Issue :=
  ⟨IssueType.error, 3008, "Mismatching pixelWidth and pixelHeight for a cube map."⟩
def HeaderData.DepthNoHeight : Issue :=
  ⟨IssueType.error, 3009, "Invalid pixelHeight. pixelHeight cannot be 0 if pixelDepth is not also 0."⟩
def HeaderData.DepthBlockCompressedNoDepth : Issue :=
  ⟨IssueType.error, 3010, "Invalid pixelDepth. pixelDepth cannot be 0 for block-compressed formats with non-zero block depth."⟩
def HeaderData.DepthStencilFormatWithDepth : Issue :=
  ⟨IssueType.error, 3011, "Invalid pixelDepth. pixelDepth must be 0 for depth or stencil formats."⟩
def HeaderData.DepthFormatWithDepth : Issue :=
  ⟨IssueType.error, 3011, "Invalid pixelDepth. pixelDepth must be 0 for depth formats."⟩
def HeaderData.StencilFormatWithDepth : Issue :=
  ⟨IssueType.error, 3012, "Invalid pixelDepth. pixelDepth must be 0 for stencil formats."⟩
def HeaderData.CubeWithDepth : Issue :=
  ⟨IssueType.error, 3013, "Invalid pixelDepth. pixelDepth must be 0 for cube maps."⟩
def HeaderData.ThreeDArray : Issue :=
  ⟨IssueType.warning, 3014, "File contains a 3D array texture."⟩
def HeaderData.InvalidFaceCount : Issue :=
  ⟨IssueType.error, 3015, "Invalid faceCount. faceCount must be either 6 for Cubemaps and Cubemap Arrays or 1 otherwise."⟩
def HeaderData.TooManyMipLevels : Issue := ⟨IssueType.error, 3016, "Too many mip levels"⟩
def HeaderData.BlockCompressedNoLevel : Issue :=
  ⟨IssueType.error, 3017, "Invalid levelCount. levelCount cannot be 0 for block-compressed formats."⟩
def HeaderData.VendorSupercompression : Issue :=
  ⟨IssueType.warning, 3018, "Using vendor supercompressionScheme. Cannot validate."⟩
def HeaderData.InvalidSupercompression : Issue :=
  ⟨IssueType.error, 3019, "Invalid supercompressionScheme."⟩

def HeaderData.IndexDFDZeroOffset : Issue :=
  ⟨IssueType.error, 3020, "Invalid dataFormatDescriptor.byteOffset. byteOffset cannot be 0."⟩
def HeaderData.IndexDFDAlignment : Issue :=
  ⟨IssueType.error, 3021, "Invalid dataFormatDescriptor.byteOffset. Defined region must be aligned to 4 byte."⟩
def HeaderData.IndexDFDZeroLength : Issue :=
  ⟨IssueType.error, 3022, "Invalid dataFormatDescriptor.byteLength. byteLength cannot be 0."⟩
def HeaderData.IndexDFDInvalid : Issue :=
  ⟨IssueType.error, 3023, "Invalid dataFormatDescriptor index. Defined region cannot exceed the size of the file."⟩
def HeaderData.IndexKVDOffsetWithoutLength : Issue :=
  ⟨IssueType.error, 3024, "Invalid keyValueData.byteOffset. byteOffset must be 0 if the byteLength is 0."⟩
def HeaderData.IndexKVDAlignment : Issue :=
  ⟨IssueType.error, 3025, "Invalid keyValueData.byteOffset. Defined region must be aligned to 4 byte."⟩
def HeaderData.IndexKVDInvalid : Issue :=
  ⟨IssueType.error, 3026, "Invalid keyValueData index. Defined region cannot exceed the size of the file."⟩
def HeaderData.IndexSGDOffsetWithoutLength : Issue :=
  ⟨IssueType.error, 3027, "Invalid supercompressionGlobalData.byteOffset. byteOffset must be 0 if the byteLength is 0."⟩
def HeaderData.IndexSGDAlignment : Issue :=
  ⟨IssueType.error, 3028, "Invalid supercompressionGlobalData.byteOffset. Defined region must be aligned to 8 byte."⟩
def HeaderData.IndexSGDMissing : Issue :=
  ⟨IssueType.error, 3029, "Invalid supercompressionGlobalData.byteLength. byteLength cannot be 0 for supercompression schemes with global data."⟩
def HeaderData.IndexSGDExists : Issue :=
  ⟨IssueType.error, 3030, "Invalid supercompressionGlobalData.byteLength. byteLength must be 0 for supercompression schemes without global data."⟩
def HeaderData.IndexSGDInvalid : Issue :=
  ⟨IssueType.error, 3031, "Invalid supercompressionGlobalData index. Defined region cannot exceed the size of the file."⟩
def HeaderData.IndexDFDContinuity : Issue :=
  ⟨IssueType.error, 3032, "Invalid dataFormatDescriptor.byteOffset. DFD region must immediately follow the level index."⟩
def HeaderData.IndexKVDContinuity : Issue :=
  ⟨IssueType.error, 3033, "Invalid keyValueData.byteOffset. KVD region must immediately follow the DFD region."⟩
def HeaderData.IndexSGDContinuity : Issue :=
  ⟨IssueType.error, 3034, "Invalid supercompressionGlobalData.byteOffset. SGD region must immediately follow the KVD region."⟩

def Metadata.TooManyEntry : Issue :=
  ⟨IssueType.error, 7001, "Invalid keyValueData. The number of key-value entries exceeds the maximum allowed."⟩
def Metadata.NotEnoughDataForAnEntry : Issue :=
  ⟨IssueType.error, 7002, "Invalid keyValueData. Not enough data left in keyValueData to process another key-value entry"⟩
def Metadata.KeyValuePairSizeTooBig : Issue :=
  ⟨IssueType.error, 7003, "Invalid keyAndValueByteLength. The value is bigger than the amount of bytes left in the keyValueData."⟩
def Metadata.KeyValuePairSizeTooSmall : Issue :=
  ⟨IssueType.error, 7004, "Invalid keyAndValueByteLength. keyAndValueByteLength must be at least 2."⟩
def Metadata.KeyMissingNullTerminator : Issue :=
  ⟨IssueType.error, 7005, "Invalid keyValueData entry is missing the NULL terminator. Every key-value entry must have a NULL terminator separating the key from the value."⟩
def Metadata.KeyForbiddenBOM : Issue :=
  ⟨IssueType.error, 7006, "Invalid key in keyValueData. Key cannot contain BOM."⟩
def Metadata.KeyInvalidUTF8 : Issue :=
  ⟨IssueType.error, 7007, "Invalid key in keyValueData. Key must be a valid UTF8 string."⟩
def Metadata.SizesDontAddUp : Issue :=
  ⟨IssueType.error, 7008, "Invalid keyValueData. keyValueData.byteLength must add up to sum of the key-value entries with paddings."⟩
def Metadata.UnknownReservedKey : Issue :=
  ⟨IssueType.error, 7009, "Invalid key in keyValueData. Keys with KTX or ktx prefixes are reserved."⟩
def Metadata.CustomMetadata : Issue :=
  ⟨IssueType.warning, 7010, "Custom key in keyValueData."⟩
def Metadata.PaddingNotZero : Issue :=
  ⟨IssueType.error, 7011, "Invalid padding byte value. Every padding byte value must be 0."⟩
def Metadata.OutOfOrder : Issue :=
  ⟨IssueType.error, 7012, "Invalid keyValueData. Key-value entries must be sorted by their key."⟩
def Metadata.DuplicateKey : Issue :=
  ⟨IssueType.error, 7013, "Invalid keyValueData. Keys must be unique."⟩

def Metadata.KTXcubemapIncompleteInvalidSize : Issue :=
  ⟨IssueType.error, 7100, "Invalid KTXcubemapIncomplete metadata. The size of the value must be 1 byte."⟩
def Metadata.KTXcubemapIncompleteInvalidValue : Issue :=
  ⟨IssueType.error, 7101, "Invalid KTXcubemapIncomplete value. The two MSB must be 0."⟩
def Metadata.KTXcubemapIncompleteAllBitSet : Issue :=
  ⟨IssueType.warning, 7102, "KTXcubemapIncomplete is not incomplete. All face is marked present."⟩
def Metadata.KTXcubemapIncompleteNoBitSet : Issue :=
  ⟨IssueType.error, 7103, "Invalid KTXcubemapIncomplete value. No face is marked present."⟩
def Metadata.KTXcubemapIncompleteIncompatibleLayerCount : Issue :=
  ⟨IssueType.error, 7104, "Incompatible KTXcubemapIncomplete and layerCount. layerCount must be the multiple of the number of faces present."⟩
def Metadata.KTXcubemapIncompleteWithFaceCountNot1 : Issue :=
  ⟨IssueType.error, 7105, "Invalid faceCount. faceCount must be 1 if KTXcubemapIncomplete is present."⟩
def Metadata.KTXorientationInvalidSize : Issue :=
  ⟨IssueType.error, 7106, "Invalid KTXorientation metadata. The size of the value must be 2 to 4 byte (including the NULL terminator)."⟩

/-- The catalog entries referenced by the active code as
`Metadata::InvalidSizeKTXglFormat` and relatives correspond to
`KTXglFormatInvalidSize` (7110) and relatives in validation_messages.h. -/
def Metadata.InvalidSizeKTXglFormat : Issue :=
  ⟨IssueType.error, 7110, "Invalid KTXglFormat metadata. The size of the value must be 12 byte."⟩
def Metadata.InvalidSizeKTXdxgiFormat : Issue :=
  ⟨IssueType.error, 7113, "Invalid KTXdxgiFormat__ metadata. The size of the value must be 4 byte."⟩
def Metadata.InvalidSizeKTXmetalPixelFormat : Issue :=
  ⟨IssueType.error, 7115, "Invalid KTXmetalPixelFormat metadata. The size of the value must be 4 byte."⟩
def Metadata.InvalidSizeKTXswizzle : Issue :=
  ⟨IssueType.error, 7117, "Invalid KTXswizzle metadata. The size of the value must be 5 byte (including the NULL terminator)."⟩
def Metadata.NoRequiredKTXwriter : Issue :=
  ⟨IssueType.error, 7124, "Missing KTXwriter metadata. When KTXwriterScParams is present KTXwriter must also be present"⟩
def Metadata.NoKTXwriter : Issue :=
  ⟨IssueType.warning, 7125, "Missing KTXwriter metadata. Writers are strongly urged to identify themselves via this."⟩
def Metadata.InvalidSizeKTXanimData : Issue :=
  ⟨IssueType.error, 70, "Invalid KTXanimData metadata. The size of the value must be 12 byte."⟩

end ktx

-- ---------------------------------------------------------------------------
-- Utilities (tools/ktx/utility.h)
-- ---------------------------------------------------------------------------

namespace ktx

/-- Alignment helper of utility.h: `(alignment - 1 + value) / alignment *
alignment` (align up to a multiple of `alignment`). -/
def align (value alignment : Nat) : Nat :=
  (alignment - 1 + value) / alignment * alignment

/-- Fuelled version of the popcount loop of utility.h
(`for (; value != 0; value >>= 1) if (value & 1) count++`); the fuel `v`
bounds the number of iterations, which suffices because the value at least
halves each round. -/
def popcountFuel : Nat → Nat → Nat
  | 0, _ => 0
  | fuel + 1, v => if v = 0 then 0 else v % 2 + popcountFuel fuel (v / 2)

/-- Popcount of utility.h. -/
def popcount (v : Nat) : Nat := popcountFuel v v

/-- Byte string of an ASCII literal, used for metadata key names. -/
def strBytes (s : String) : List Nat :=
  s.data.map (fun ch => ch.toNat)

/-- Lexicographic strict order on byte strings; `std::less` on
`std::string` compares by unsigned bytes. -/
def lexLt : List Nat → List Nat → Bool
  | [], [] => false
  | [], _ :: _ => true
  | _ :: _, [] => false
  | a :: as, b :: bs => if a < b then true else if b < a then false else lexLt as bs

/-- Prefix check of utility.h (`starts_with`). -/
def starts_with (s pre : List Nat) : Bool :=
  decide (pre = s.take pre.length)

/-- UTF-8 validation of utility.h.  The source is a stub
(`TODO Tools P5: Implement validateUTF8`) that always returns
`std::nullopt`, so no invalid-UTF8 index is ever produced. -/
def validateUTF8 (_ : List Nat) : Option Nat := none

end ktx

-- ---------------------------------------------------------------------------
-- Format classifier
-- ---------------------------------------------------------------------------

namespace ktx

/-- Modelled from the spec: `VK_FORMAT_MAX_STANDARD_ENUM` of
vkformat_enum.h (not under src/), the last standard Vulkan format value
(`VK_FORMAT_ASTC_12x12_SRGB_BLOCK`). -/
def VK_FORMAT_MAX_STANDARD_ENUM : Nat := 184

/-- Modelled from the spec: `isProhibitedFormat` of vkformat_check.c (not
under src/): the format values explicitly disallowed in KTX2 (the
`USCALED`/`SSCALED` families and the `A8B8G8R8_*_PACK32` family). -/
def isProhibitedFormat (v : Nat) : Bool :=
  v ∈ [11, 12, 18, 19, 25, 26, 32, 33, 39, 40, 46, 47,
       51, 52, 53, 54, 55, 56, 57,
       60, 61, 66, 67, 72, 73, 79, 80, 86, 87, 93, 94]

/-- Modelled from the spec: `isValidFormat` of vkformat_check.c (not under
src/): a known, defined format value — the standard range
`0 .. VK_FORMAT_MAX_STANDARD_ENUM` plus the extension format values listed
in vkformat.h's classifier tables (PVRTC, ASTC SFLOAT and 3D ASTC
extensions). -/
def isValidFormat (v : Nat) : Bool :=
  v ≤ VK_FORMAT_MAX_STANDARD_ENUM
  || (1000054000 ≤ v && v ≤ 1000054007)
  || (1000066000 ≤ v && v ≤ 1000066013)
  || (1000288000 ≤ v && v ≤ 1000288029)

/-- Block-compressed formats: the switch table of vkformat.h
(`isFormatBlockCompressed`): BC (131-146), ETC2/EAC (147-156), ASTC
(157-184), PVRTC (1000054000-1000054007), ASTC SFLOAT extensions
(1000066000-1000066013) and the 3D ASTC extensions
(1000288000-1000288029). -/
def isFormatBlockCompressed (v : Nat) : Bool :=
  (131 ≤ v && v ≤ 184)
  || (1000054000 ≤ v && v ≤ 1000054007)
  || (1000066000 ≤ v && v ≤ 1000066013)
  || (1000288000 ≤ v && v ≤ 1000288029)

/-- 3D block-compressed formats: the 3D ASTC extension values
(vkformat.h, `isFormat3DBlockCompressed`). -/
def isFormat3DBlockCompressed (v : Nat) : Bool :=
  1000288000 ≤ v && v ≤ 1000288029

/-- Depth formats (vkformat.h, `isFormatDepth`): D16_UNORM (124),
X8_D24_UNORM_PACK32 (125), D32_SFLOAT (126) and the mixed depth/stencil
formats 128-130. -/
def isFormatDepth (v : Nat) : Bool :=
  v ∈ [124, 125, 126, 128, 129, 130]

/-- Stencil formats (vkformat.h, `isFormatStencil`): S8_UINT (127) and the
mixed depth/stencil formats 128-130. -/
def isFormatStencil (v : Nat) : Bool :=
  v ∈ [127, 128, 129, 130]

/-- Modelled from the spec: the `ktxSupercmpScheme` constants of ktx.h
(not under src/): NONE 0, BASIS_LZ 1, ZSTD 2, ZLIB 3; defined range 0-3;
vendor range 0x10000-0x1ffff. -/
def KTX_SS_BASIS_LZ : Nat := 1
def KTX_SS_BEGIN_RANGE : Nat := 0
def KTX_SS_END_RANGE : Nat := 3
def KTX_SS_BEGIN_VENDOR_RANGE : Nat := 0x10000
def KTX_SS_END_VENDOR_RANGE : Nat := 0x1ffff

/-- Supercompression schemes with global data (vkformat.h,
`isSupercompressionWithGlobalData`): only BASIS_LZ. -/
def isSupercompressionWithGlobalData (scheme : Nat) : Bool :=
  scheme = KTX_SS_BASIS_LZ

/-- Block-compressed supercompression schemes (vkformat.h,
`isSupercompressionBlockCompressed`): only BASIS_LZ. -/
def isSupercompressionBlockCompressed (scheme : Nat) : Bool :=
  scheme = KTX_SS_BASIS_LZ

/-- The 12-byte KTX2 file identifier `KTX2_IDENTIFIER_REF`
(`AB 4B 54 58 20 32 30 BB 0D 0A 1A 0A`). -/
def ktx2_identifier_reference : List Nat :=
  [0xAB, 0x4B, 0x54, 0x58, 0x20, 0x32, 0x30, 0xBB, 0x0D, 0x0A, 0x1A, 0x0A]

/-- Size of the KTX2 header (`KTX2_HEADER_SIZE`), 80 bytes. -/
def KTX2_HEADER_SIZE : Nat := 80

/-- Modelled from the spec: `sizeof(ktxLevelIndexEntry)` (ktx.h, not under
src/).  The spec fixes the level index stride as 16 bytes per effective
level (`headerSize + 16 * effectiveLevelCount`). -/
def ktxLevelIndexEntrySize : Nat := 16

end ktx

-- ---------------------------------------------------------------------------
-- Parsed header and validation context
-- ---------------------------------------------------------------------------

namespace ktx

/-- One 32-bit index entry of the KTX2 header (`ktxIndexEntry32`). -/
structure ktxIndexEntry32 where
  byteOffset : Nat
  byteLength : Nat
deriving Repr, DecidableEq

/-- One 64-bit index entry of the KTX2 header (`ktxIndexEntry64`). -/
structure ktxIndexEntry64 where
  byteOffset : Nat
  byteLength : Nat
deriving Repr, DecidableEq

/-- The parsed 80-byte KTX2 header (`KTX_header2`). -/
structure KTX_header2 where
  identifier : List Nat
  vkFormat : Nat
  typeSize : Nat
  pixelWidth : Nat
  pixelHeight : Nat
  pixelDepth : Nat
  layerCount : Nat
  faceCount : Nat
  levelCount : Nat
  supercompressionScheme : Nat
  dataFormatDescriptor : ktxIndexEntry32
  keyValueData : ktxIndexEntry32
  supercompressionGlobalData : ktxIndexEntry64
deriving Repr, DecidableEq

/-- Zero-initialised header (the context `memset`s the header to zero). -/
def zeroHeader : KTX_header2 :=
  ⟨List.replicate 12 0, 0, 0, 0, 0, 0, 0, 0, 0, 0, ⟨0, 0⟩, ⟨0, 0⟩, ⟨0, 0⟩⟩

/-- The validation state (`ValidationContext`): the buffer, the cursor
(`fileIt`, as an index into the buffer; the file size is the buffer
length), the sink state (flag, counters, delivered reports) and the
derived header state. -/
structure ValidationContext where
  fileData : List Nat
  fileIt : Nat
  treatWarningsAsError : Bool
  numError : Nat
  numWarning : Nat
  reports : List ValidationReport
  header : KTX_header2
  layerCount : Nat
  levelCount : Nat
  dimensionCount : Nat
  foundKTXanimData : Bool
  foundKTXcubemapIncomplete : Bool
  foundKTXwriter : Bool
  foundKTXwriterScParams : Bool
deriving Repr, DecidableEq

/-- Everything of the validation state except the diagnostic-sink state
(flag, counters, reports).  All branch conditions of the validator factor
through this projection; only the diagnostic primitives touch the rest. -/
structure CoreState where
  fileData : List Nat
  fileIt : Nat
  header : KTX_header2
  layerCount : Nat
  levelCount : Nat
  dimensionCount : Nat
  foundKTXanimData : Bool
  foundKTXcubemapIncomplete : Bool
  foundKTXwriter : Bool
  foundKTXwriterScParams : Bool
deriving Repr, DecidableEq

def core (c : ValidationContext) : CoreState :=
  ⟨c.fileData, c.fileIt, c.header, c.layerCount, c.levelCount, c.dimensionCount,
   c.foundKTXanimData, c.foundKTXcubemapIncomplete, c.foundKTXwriter, c.foundKTXwriterScParams⟩

/-- File size as seen by the context (`fileSize`); the whole caller buffer. -/
def fileSize (c : ValidationContext) : Nat := c.fileData.length

/-- Initial context of `validateMemory(data, size)`. -/
def initCtx (data : List Nat) (warningsAsErrors : Bool) : ValidationContext :=
  ⟨data, 0, warningsAsErrors, 0, 0, [], zeroHeader, 0, 0, 0, false, false, false, false⟩

-- Diagnostic sink primitives (`ValidationContext::warning/error/fatal`).

/-- Sink primitive `warning(issue, args...)`: if `treatWarningsAsError` is
set, count as error and deliver the report re-stamped with error severity;
otherwise count as warning and deliver with the issue's own severity.  The
id, message and rendered details are identical in both branches. -/
def warning (issue : Issue) (details : String) (c : ValidationContext) : ValidationContext :=
  if c.treatWarningsAsError then
    { c with numError := c.numError + 1,
             reports := c.reports ++ [⟨IssueType.error, issue.id, issue.message, details⟩] }
  else
    { c with numWarning := c.numWarning + 1,
             reports := c.reports ++ [⟨issue.type, issue.id, issue.message, details⟩] }

/-- Sink primitive `error(issue, args...)`. -/
def error (issue : Issue) (details : String) (c : ValidationContext) : ValidationContext :=
  { c with numError := c.numError + 1,
           reports := c.reports ++ [⟨issue.type, issue.id, issue.message, details⟩] }

/-- State after the sink primitive `fatal(issue, args...)` delivered its
report (the report is delivered to the callback before the throw). -/
def fatalCtx (issue : Issue) (details : String) (c : ValidationContext) : ValidationContext :=
  { c with numError := c.numError + 1,
           reports := c.reports ++ [⟨issue.type, issue.id, issue.message, details⟩] }

/-- Sink primitive `fatal(issue, args...)`: deliver, then throw
`FatalValidationError` which unwinds to the orchestrator. -/
def fatal {α : Type} (issue : Issue) (details : String) (c : ValidationContext) :
    Except ValidationContext α :=
  Except.error (fatalCtx issue details c)

end ktx

-- ---------------------------------------------------------------------------
-- Byte reader (current pipeline)
-- ---------------------------------------------------------------------------

namespace ktx

/-- Little-endian 32-bit read at byte offset `i` of a byte list. -/
def u32le (l : List Nat) (i : Nat) : Nat :=
  l.getD i 0 + 256 * l.getD (i + 1) 0 + 65536 * l.getD (i + 2) 0 + 16777216 * l.getD (i + 3) 0

/-- Little-endian 64-bit read at byte offset `i` of a byte list. -/
def u64le (l : List Nat) (i : Nat) : Nat :=
  u32le l i + 4294967296 * u32le l (i + 4)

/-- Rendered details of an `UnexpectedEOF` report of the current reader. -/
def eofDetails (readSize : Nat) (name : String) (available : Nat) : String :=
  "Expected " ++ toString readSize ++ " more byte for " ++ name
    ++ " but only found " ++ toString available ++ " byte."

/-- Rendered details of an `UnexpectedEOFSeek` report. -/
def eofSeekDetails (target : Nat) (name : String) (size : Nat) : String :=
  "Requested seek position is " ++ toString target ++ " for accessing " ++ name
    ++ ", but the file is only " ++ toString size ++ " byte long."

/-- Byte reader `seek_to(target, name)`: move the cursor to `target`;
seeking past the end of the buffer (the end byte itself is allowed) raises
the fatal `UnexpectedEOFSeek`.  The forward-only `assert` of the source is
a contract, not observable behaviour, and is not modelled. -/
def seek_to (target : Nat) (name : String) (c : ValidationContext) :
    Except ValidationContext ValidationContext :=
  if target > fileSize c then
    fatal IOError.UnexpectedEOFSeek (eofSeekDetails target name (fileSize c)) c
  else
    Except.ok { c with fileIt := target }

/-- Byte reader `read(dst, size, name)` of the current pipeline: copy
`size` bytes at the cursor; if `cursor + size > length` raise the fatal
`UnexpectedEOF`.  The cursor is not advanced.  Returns the copied bytes. -/
def read (readSize : Nat) (name : String) (c : ValidationContext) :
    Except ValidationContext (List Nat) :=
  if c.fileIt + readSize > fileSize c then
    fatal IOError.UnexpectedEOF
      (eofDetails readSize name (fileSize c - c.fileIt)) c
  else
    Except.ok ((c.fileData.drop c.fileIt).take readSize)

/-- Parses the 80 header bytes into `KTX_header2` (all fields stored
little-endian). -/
def parseHeader (bytes : List Nat) : KTX_header2 :=
  { identifier := bytes.take 12
    vkFormat := u32le bytes 12
    typeSize := u32le bytes 16
    pixelWidth := u32le bytes 20
    pixelHeight := u32le bytes 24
    pixelDepth := u32le bytes 28
    layerCount := u32le bytes 32
    faceCount := u32le bytes 36
    levelCount := u32le bytes 40
    supercompressionScheme := u32le bytes 44
    dataFormatDescriptor := ⟨u32le bytes 48, u32le bytes 52⟩
    keyValueData := ⟨u32le bytes 56, u32le bytes 60⟩
    supercompressionGlobalData := ⟨u64le bytes 64, u64le bytes 72⟩ }

end ktx

-- ---------------------------------------------------------------------------
-- Data-driven check sequences
-- ---------------------------------------------------------------------------

namespace ktx

/-- One conditional diagnostic of the validator: a branch condition and a
details renderer, both reading only the environment `a` (extra local data)
and the core state, plus the issue emitted when the condition holds.
Warning-severity issues dispatch to the `warning` primitive, the rest to
`error`. -/
structure Check (α : Type) where
  cond : α → CoreState → Bool
  issue : Issue
  details : α → CoreState → String

/-- Runs one conditional diagnostic. -/
def applyCheck {α : Type} (a : α) (ch : Check α) (c : ValidationContext) : ValidationContext :=
  if ch.cond a (core c) then
    if ch.issue.type = IssueType.warning then warning ch.issue (ch.details a (core c)) c
    else error ch.issue (ch.details a (core c)) c
  else c

/-- Runs a sequence of conditional diagnostics in order. -/
def runChecks {α : Type} (a : α) (cs : List (Check α)) (c : ValidationContext) :
    ValidationContext :=
  match cs with
  | [] => c
  | ch :: rest => runChecks a rest (applyCheck a ch c)

end ktx

-- ---------------------------------------------------------------------------
-- Current pipeline: header validation (`ValidationContext::validateHeader`)
-- ---------------------------------------------------------------------------

namespace ktx

/-- Signed reinterpretation of the 32-bit `vkFormat` field
(`static_cast<VkFormat>(header.vkFormat)`; `VkFormat` is a C `int`). -/
def vkFormatSigned (u : Nat) : Int :=
  if u < 2 ^ 31 then (u : Int) else (u : Int) - 2 ^ 32

/-- Decimal stand-in for `toStringVkFormat`. -/
def fmtVk (u : Nat) : String := toString u

/-- Decimal stand-in for `toStringKTXSupercmpScheme`. -/
def fmtScheme (s : Nat) : String := toString s

/-- The vkFormat classification checks of the current `validateHeader`
(lines 307-319 of the new validate.cpp), with the nested
if/else-if structure flattened into guarded checks in source order.  The
range comparisons are signed (`VkFormat` is an `int`). -/
def vkFormatChecks : List (Check Unit) :=
  [ ⟨fun _ s => isProhibitedFormat s.header.vkFormat,
      HeaderData.ProhibitedFormat, fun _ s => fmtVk s.header.vkFormat⟩,
    ⟨fun _ s => !isProhibitedFormat s.header.vkFormat && !isValidFormat s.header.vkFormat
        && decide (vkFormatSigned s.header.vkFormat ≤ (VK_FORMAT_MAX_STANDARD_ENUM : Int)),
      HeaderData.InvalidFormat, fun _ s => fmtVk s.header.vkFormat⟩,
    ⟨fun _ s => !isProhibitedFormat s.header.vkFormat && !isValidFormat s.header.vkFormat
        && decide ((VK_FORMAT_MAX_STANDARD_ENUM : Int) < vkFormatSigned s.header.vkFormat)
        && decide (vkFormatSigned s.header.vkFormat < 1000001000),
      HeaderData.InvalidFormat, fun _ s => fmtVk s.header.vkFormat⟩,
    ⟨fun _ s => !isProhibitedFormat s.header.vkFormat && !isValidFormat s.header.vkFormat
        && decide ((1000001000 : Int) ≤ vkFormatSigned s.header.vkFormat),
      HeaderData.UnknownFormat, fun _ s => fmtVk s.header.vkFormat⟩,
    ⟨fun _ s => decide (vkFormatSigned s.header.vkFormat < 0),
      HeaderData.InvalidFormat, fun _ s => fmtVk s.header.vkFormat⟩,
    ⟨fun _ s => s.header.supercompressionScheme == KTX_SS_BASIS_LZ
        && s.header.vkFormat != 0,
      HeaderData.VkFormatAndBasis, fun _ s => fmtVk s.header.vkFormat⟩ ]

/-- The typeSize and dimension checks of the current `validateHeader`
(lines 326-366). -/
def dimensionChecks : List (Check Unit) :=
  [ ⟨fun _ s => s.header.vkFormat == 0 && s.header.typeSize != 1,
      HeaderData.TypeSizeNotOne,
      fun _ s => toString s.header.typeSize ++ " " ++ fmtVk s.header.vkFormat⟩,
    ⟨fun _ s => s.header.vkFormat != 0 && isFormatBlockCompressed s.header.vkFormat
        && s.header.typeSize != 1,
      HeaderData.TypeSizeNotOne,
      fun _ s => toString s.header.typeSize ++ " " ++ fmtVk s.header.vkFormat⟩,
    ⟨fun _ s => s.header.pixelWidth == 0, HeaderData.WidthZero, fun _ _ => ""⟩,
    ⟨fun _ s => isFormatBlockCompressed s.header.vkFormat && s.header.pixelHeight == 0,
      HeaderData.BlockCompressedNoHeight, fun _ s => fmtVk s.header.vkFormat⟩,
    ⟨fun _ s => isSupercompressionBlockCompressed s.header.supercompressionScheme
        && s.header.pixelHeight == 0,
      HeaderData.BlockCompressedNoHeight, fun _ s => fmtScheme s.header.supercompressionScheme⟩,
    ⟨fun _ s => s.header.faceCount == 6 && s.header.pixelWidth != s.header.pixelHeight,
      HeaderData.CubeHeightWidthMismatch,
      fun _ s => toString s.header.pixelWidth ++ " " ++ toString s.header.pixelHeight⟩,
    ⟨fun _ s => s.header.pixelDepth != 0 && s.header.pixelHeight == 0,
      HeaderData.DepthNoHeight, fun _ s => toString s.header.pixelDepth⟩,
    ⟨fun _ s => isFormat3DBlockCompressed s.header.vkFormat && s.header.pixelDepth == 0,
      HeaderData.DepthBlockCompressedNoDepth, fun _ s => fmtVk s.header.vkFormat⟩,
    ⟨fun _ s => (isFormatDepth s.header.vkFormat || isFormatStencil s.header.vkFormat)
        && s.header.pixelDepth != 0,
      HeaderData.DepthStencilFormatWithDepth,
      fun _ s => toString s.header.pixelDepth ++ " " ++ fmtVk s.header.vkFormat⟩,
    ⟨fun _ s => s.header.faceCount == 6 && s.header.pixelDepth != 0,
      HeaderData.CubeWithDepth, fun _ s => toString s.header.pixelDepth⟩,
    ⟨fun _ s => s.header.pixelDepth != 0 && s.header.layerCount != 0,
      HeaderData.ThreeDArray, fun _ _ => ""⟩ ]

/-- The faceCount and levelCount checks of the current `validateHeader`
(lines 386-397), performed after `layerCount` has been derived. -/
def faceLevelChecks : List (Check Unit) :=
  [ ⟨fun _ s => s.header.faceCount != 6 && s.header.faceCount != 1,
      HeaderData.InvalidFaceCount, fun _ s => toString s.header.faceCount⟩,
    ⟨fun _ s => isFormatBlockCompressed s.header.vkFormat && s.header.levelCount == 0,
      HeaderData.BlockCompressedNoLevel, fun _ s => fmtVk s.header.vkFormat⟩,
    ⟨fun _ s => isSupercompressionBlockCompressed s.header.supercompressionScheme
        && s.header.levelCount == 0,
      HeaderData.BlockCompressedNoLevel, fun _ s => fmtScheme s.header.supercompressionScheme⟩ ]

/-- Largest of width, height and depth. -/
def maxDim (h : KTX_header2) : Nat :=
  max (max h.pixelWidth h.pixelHeight) h.pixelDepth

/-- The mip-level-count and supercompression-scheme checks of the current
`validateHeader` (lines 400-414), performed after the member `levelCount`
has been set to `max(header.levelCount, 1)`.  The shift
`(uint32_t)1 << (levelCount - 1)` is modelled as `2 ^ (levelCount - 1)`
reduced modulo `2^32`; for shift counts of 32 or more the C++ expression
is undefined behaviour. -/
def levelSchemeChecks : List (Check Unit) :=
  [ ⟨fun _ s => decide (maxDim s.header < 2 ^ (s.levelCount - 1) % 2 ^ 32),
      HeaderData.TooManyMipLevels,
      fun _ s => toString s.levelCount ++ " " ++ toString (maxDim s.header)⟩,
    ⟨fun _ s => decide (KTX_SS_BEGIN_VENDOR_RANGE ≤ s.header.supercompressionScheme)
        && decide (s.header.supercompressionScheme ≤ KTX_SS_END_VENDOR_RANGE),
      HeaderData.VendorSupercompression, fun _ s => toString s.header.supercompressionScheme⟩,
    ⟨fun _ s => !(decide (KTX_SS_BEGIN_VENDOR_RANGE ≤ s.header.supercompressionScheme)
          && decide (s.header.supercompressionScheme ≤ KTX_SS_END_VENDOR_RANGE))
        && decide (KTX_SS_END_RANGE < s.header.supercompressionScheme),
      HeaderData.InvalidSupercompression, fun _ s => toString s.header.supercompressionScheme⟩ ]

/-- Derivation of `dimensionCount` (`// Detect dimension counts`):
depth and layers give 4, depth 3, height 2, else 1. -/
def setDimensionCount (c : ValidationContext) : ValidationContext :=
  { c with dimensionCount :=
      if c.header.pixelDepth ≠ 0 then (if c.header.layerCount ≠ 0 then 4 else 3)
      else if c.header.pixelHeight ≠ 0 then 2 else 1 }

/-- Derivation of the effective layer count (`layerCount = max(header.layerCount, 1u)`). -/
def setLayerCount (c : ValidationContext) : ValidationContext :=
  { c with layerCount := max c.header.layerCount 1 }

/-- Derivation of the effective level count (`levelCount = max(header.levelCount, 1u)`). -/
def setLevelCount (c : ValidationContext) : ValidationContext :=
  { c with levelCount := max c.header.levelCount 1 }

/-- The pure tail of the current `validateHeader` after the header bytes
have been parsed and the identifier matched: vkFormat, typeSize and
dimension checks; derivation of `dimensionCount`, `layerCount` and
`levelCount`; faceCount, levelCount and supercompression checks. -/
def headerChecks (c : ValidationContext) : ValidationContext :=
  let c := runChecks () vkFormatChecks c
  let c := runChecks () dimensionChecks c
  let c := setDimensionCount c
  let c := setLayerCount c
  let c := runChecks () faceLevelChecks c
  let c := setLevelCount c
  runChecks () levelSchemeChecks c

/-- Current `ValidationContext::validateHeader`: read the 80 header bytes
(fatal `UnexpectedEOF` when fewer remain), check the identifier (fatal
`NotKTX2` on mismatch, no further validation), then run the header
checks. -/
def validateHeader (c : ValidationContext) : Except ValidationContext ValidationContext := do
  let bytes ← read 80 "the header" c
  let c := { c with header := parseHeader bytes }
  if c.header.identifier ≠ ktx2_identifier_reference then
    fatal FileError.NotKTX2 "" c
  else
    Except.ok (headerChecks c)

end ktx

-- ---------------------------------------------------------------------------
-- Current pipeline: index validation (`ValidationContext::validateIndices`)
-- ---------------------------------------------------------------------------

namespace ktx

/-- Expected DFD offset: the level index
(`KTX2_HEADER_SIZE + sizeof(ktxLevelIndexEntry) * levelCount`) aligned up
to 4 bytes. -/
def expectedDFDOffset (lvl : Nat) : Nat :=
  align (KTX2_HEADER_SIZE + ktxLevelIndexEntrySize * lvl) 4

/-- Expected KVD offset: end of the (expected) DFD region aligned up to 4. -/
def expectedKVDOffset (lvl dfdLen : Nat) : Nat :=
  align (expectedDFDOffset lvl + dfdLen) 4

/-- Expected SGD offset: end of the previous (expected) region — the KVD
region when present, otherwise the DFD region — aligned up to 8. -/
def expectedSGDOffset (lvl dfdLen kvdLen : Nat) : Nat :=
  if kvdLen ≠ 0 then align (expectedKVDOffset lvl dfdLen + kvdLen) 8
  else align (expectedDFDOffset lvl + dfdLen) 8

/-- The index checks of the current `validateIndices` (lines 417-485):
per-index zero/alignment/bounds rules followed by the continuity rules. -/
def indexChecks : List (Check Unit) :=
  [ ⟨fun _ s => s.header.dataFormatDescriptor.byteOffset == 0,
      HeaderData.IndexDFDZeroOffset, fun _ _ => ""⟩,
    ⟨fun _ s => s.header.dataFormatDescriptor.byteOffset % 4 != 0,
      HeaderData.IndexDFDAlignment, fun _ s => toString s.header.dataFormatDescriptor.byteOffset⟩,
    ⟨fun _ s => s.header.dataFormatDescriptor.byteLength == 0,
      HeaderData.IndexDFDZeroLength, fun _ _ => ""⟩,
    ⟨fun _ s => decide (s.header.dataFormatDescriptor.byteOffset
          + s.header.dataFormatDescriptor.byteLength > s.fileData.length),
      HeaderData.IndexDFDInvalid,
      fun _ s => toString s.header.dataFormatDescriptor.byteOffset ++ " "
        ++ toString s.header.dataFormatDescriptor.byteLength ++ " " ++ toString s.fileData.length⟩,
    ⟨fun _ s => s.header.keyValueData.byteLength == 0 && s.header.keyValueData.byteOffset != 0,
      HeaderData.IndexKVDOffsetWithoutLength, fun _ s => toString s.header.keyValueData.byteOffset⟩,
    ⟨fun _ s => s.header.keyValueData.byteOffset % 4 != 0,
      HeaderData.IndexKVDAlignment, fun _ s => toString s.header.keyValueData.byteOffset⟩,
    ⟨fun _ s => decide (s.header.keyValueData.byteOffset
          + s.header.keyValueData.byteLength > s.fileData.length),
      HeaderData.IndexKVDInvalid,
      fun _ s => toString s.header.keyValueData.byteOffset ++ " "
        ++ toString s.header.keyValueData.byteLength ++ " " ++ toString s.fileData.length⟩,
    ⟨fun _ s => s.header.supercompressionGlobalData.byteLength == 0
        && s.header.supercompressionGlobalData.byteOffset != 0,
      HeaderData.IndexSGDOffsetWithoutLength,
      fun _ s => toString s.header.supercompressionGlobalData.byteOffset⟩,
    ⟨fun _ s => s.header.supercompressionGlobalData.byteOffset % 8 != 0,
      HeaderData.IndexSGDAlignment,
      fun _ s => toString s.header.supercompressionGlobalData.byteOffset⟩,
    ⟨fun _ s => isSupercompressionWithGlobalData s.header.supercompressionScheme
        && s.header.supercompressionGlobalData.byteLength == 0,
      HeaderData.IndexSGDMissing, fun _ s => fmtScheme s.header.supercompressionScheme⟩,
    ⟨fun _ s => !isSupercompressionWithGlobalData s.header.supercompressionScheme
        && s.header.supercompressionGlobalData.byteLength != 0,
      HeaderData.IndexSGDExists,
      fun _ s => toString s.header.supercompressionGlobalData.byteLength ++ " "
        ++ fmtScheme s.header.supercompressionScheme⟩,
    ⟨fun _ s => decide (s.header.supercompressionGlobalData.byteOffset
          + s.header.supercompressionGlobalData.byteLength > s.fileData.length),
      HeaderData.IndexSGDInvalid,
      fun _ s => toString s.header.supercompressionGlobalData.byteOffset ++ " "
        ++ toString s.header.supercompressionGlobalData.byteLength ++ " "
        ++ toString s.fileData.length⟩,
    ⟨fun _ s => decide (expectedDFDOffset s.levelCount ≠ s.header.dataFormatDescriptor.byteOffset),
      HeaderData.IndexDFDContinuity,
      fun _ s => toString s.header.dataFormatDescriptor.byteOffset ++ " "
        ++ toString (expectedDFDOffset s.levelCount)⟩,
    ⟨fun _ s => s.header.keyValueData.byteLength != 0
        && decide (expectedKVDOffset s.levelCount s.header.dataFormatDescriptor.byteLength
            ≠ s.header.keyValueData.byteOffset),
      HeaderData.IndexKVDContinuity,
      fun _ s => toString s.header.keyValueData.byteOffset ++ " "
        ++ toString (expectedKVDOffset s.levelCount s.header.dataFormatDescriptor.byteLength)⟩,
    ⟨fun _ s => s.header.supercompressionGlobalData.byteLength != 0
        && decide (expectedSGDOffset s.levelCount s.header.dataFormatDescriptor.byteLength
            s.header.keyValueData.byteLength ≠ s.header.supercompressionGlobalData.byteOffset),
      HeaderData.IndexSGDContinuity,
      fun _ s => toString s.header.supercompressionGlobalData.byteOffset ++ " "
        ++ toString (expectedSGDOffset s.levelCount s.header.dataFormatDescriptor.byteLength
            s.header.keyValueData.byteLength)⟩ ]

/-- Current `ValidationContext::validateIndices`. -/
def validateIndices (c : ValidationContext) : ValidationContext :=
  runChecks () indexChecks c

end ktx

-- ---------------------------------------------------------------------------
-- Current pipeline: key/value data validation (`ValidationContext::validateKVD`)
-- ---------------------------------------------------------------------------

namespace ktx

/-- Hard cap on the number of key/value entries (`MAX_NUM_KV_ENTRY`). -/
def MAX_NUM_KV_ENTRY : Nat := 100

/-- One parsed metadata record (`KeyValueEntry` of `validateKVD`): key
bytes (BOM stripped), value bytes and value size. -/
structure KeyValueEntry where
  key : List Nat
  data : List Nat
  size : Nat
deriving Repr, DecidableEq

/-- Entry list sortedness by key (`is_sorted` with `std::less` projected
on the key): no adjacent pair is strictly decreasing. -/
def entriesSorted : List KeyValueEntry → Bool
  | [] => true
  | [_] => true
  | a :: b :: rest => !lexLt b.key a.key && entriesSorted (b :: rest)

/-- Entry list key uniqueness (`is_unique`, adjacent comparison on a
sorted range). -/
def entriesUnique : List KeyValueEntry → Bool
  | [] => true
  | [_] => true
  | a :: b :: rest => a.key != b.key && entriesUnique (b :: rest)

/-- Insertion into a key-sorted entry list (ascending). -/
def insertEntry (e : KeyValueEntry) : List KeyValueEntry → List KeyValueEntry
  | [] => [e]
  | x :: xs => if lexLt x.key e.key then x :: insertEntry e xs else e :: x :: xs

/-- Sorting of the entry list by key (`sort` with `std::less` projected on
the key), as an insertion sort; the relative order of duplicate keys after
`std::sort` is unspecified in the source, this model keeps it stable. -/
def sortEntries : List KeyValueEntry → List KeyValueEntry
  | [] => []
  | x :: xs => insertEntry x (sortEntries xs)

/-- Body of the `check_padding_zeros` loop: emits the issue once per
non-zero byte among the next `k` bytes starting at `pos`. -/
def padLoop (kvd : List Nat) (issue : Issue) (after : String) :
    Nat → Nat → ValidationContext → ValidationContext
  | 0, _, c => c
  | k + 1, pos, c =>
    let c := if kvd.getD pos 0 ≠ 0 then
        error issue (toString (kvd.getD pos 0) ++ " " ++ after) c
      else c
    padLoop kvd issue after k (pos + 1) c

/-- `validatePaddingZeros(ptr, bufferEnd, alignment, issue, args...)`:
checks the bytes from `off` to `min(bufEnd, align(off, alignment))`. -/
def validatePaddingZeros (kvd : List Nat) (off bufEnd alignment : Nat) (issue : Issue)
    (after : String) (c : ValidationContext) : ValidationContext :=
  padLoop kvd issue after (min bufEnd (align off alignment) - off) off c

-- Per-key validators.

/-- Marks `KTXcubemapIncomplete` as seen. -/
def setFoundCubemapIncomplete (c : ValidationContext) : ValidationContext :=
  { c with foundKTXcubemapIncomplete := true }

/-- Size guard of `validateKVCubemapIncomplete` (before the early return
on an empty value). -/
def cubemapSizeChecks : List (Check (List Nat × Nat)) :=
  [ ⟨fun a _ => a.2 != 1, Metadata.KTXcubemapIncompleteInvalidSize, fun a _ => toString a.2⟩ ]

/-- Value checks of `validateKVCubemapIncomplete` after the early return.
The environment carries the value bytes and size; `value` is the first
value byte, masked to its low six bits for recovery before the popcount.
Note that the source computes `popcount(value & 0b11000000u)` *after*
masking `value` with `0b00111111u`, so the popcount is always 0. -/
def cubemapValueChecks : List (Check (List Nat × Nat)) :=
  [ ⟨fun a _ => decide (a.2 > 0) && decide (a.1.headD 0 &&& 0xC0 ≠ 0),
      Metadata.KTXcubemapIncompleteInvalidValue, fun a _ => toString (a.1.headD 0)⟩,
    ⟨fun a _ => popcount (a.1.headD 0 &&& 0x3F &&& 0xC0) == 6,
      Metadata.KTXcubemapIncompleteAllBitSet, fun _ _ => ""⟩,
    ⟨fun a _ => popcount (a.1.headD 0 &&& 0x3F &&& 0xC0) == 0,
      Metadata.KTXcubemapIncompleteNoBitSet, fun _ _ => ""⟩,
    ⟨fun a s => popcount (a.1.headD 0 &&& 0x3F &&& 0xC0) != 0
        && decide (s.layerCount % popcount (a.1.headD 0 &&& 0x3F &&& 0xC0) ≠ 0),
      Metadata.KTXcubemapIncompleteIncompatibleLayerCount,
      fun a s => toString s.header.layerCount ++ " "
        ++ toString (popcount (a.1.headD 0 &&& 0x3F &&& 0xC0))⟩,
    ⟨fun _ s => s.header.faceCount != 1,
      Metadata.KTXcubemapIncompleteWithFaceCountNot1, fun _ s => toString s.header.faceCount⟩,
    ⟨fun _ s => s.header.pixelHeight != s.header.pixelWidth,
      HeaderData.CubeHeightWidthMismatch,
      fun _ s => toString s.header.pixelWidth ++ " " ++ toString s.header.pixelHeight⟩,
    ⟨fun _ s => s.header.pixelDepth != 0,
      HeaderData.CubeWithDepth, fun _ s => toString s.header.pixelDepth⟩ ]

/-- `ValidationContext::validateKVCubemapIncomplete`. -/
def validateKVCubemapIncomplete (c : ValidationContext) (_key : List Nat)
    (data : List Nat) (size : Nat) : ValidationContext :=
  let c := setFoundCubemapIncomplete c
  let c := runChecks (data, size) cubemapSizeChecks c
  if size = 0 then c
  else runChecks (data, size) cubemapValueChecks c

/-- `ValidationContext::validateKVOrientation`.  Only the size guard is
active in the source; the dimension-count and character checks are
commented out. -/
def validateKVOrientation (c : ValidationContext) (_key : List Nat)
    (_data : List Nat) (size : Nat) : ValidationContext :=
  if size < 3 ∨ size > 5 then error Metadata.KTXorientationInvalidSize (toString size) c
  else c

/-- `ValidationContext::validateKVGlFormat`. -/
def validateKVGlFormat (c : ValidationContext) (_key : List Nat)
    (_data : List Nat) (size : Nat) : ValidationContext :=
  if size ≠ 12 then error Metadata.InvalidSizeKTXglFormat (toString size) c else c

/-- `ValidationContext::validateKVDxgiFormat`. -/
def validateKVDxgiFormat (c : ValidationContext) (_key : List Nat)
    (_data : List Nat) (size : Nat) : ValidationContext :=
  if size ≠ 4 then error Metadata.InvalidSizeKTXdxgiFormat (toString size) c else c

/-- `ValidationContext::validateKVMetalPixelFormat`. -/
def validateKVMetalPixelFormat (c : ValidationContext) (_key : List Nat)
    (_data : List Nat) (size : Nat) : ValidationContext :=
  if size ≠ 4 then error Metadata.InvalidSizeKTXmetalPixelFormat (toString size) c else c

/-- `ValidationContext::validateKVSwizzle`: only the size guard is active. -/
def validateKVSwizzle (c : ValidationContext) (_key : List Nat)
    (_data : List Nat) (size : Nat) : ValidationContext :=
  if size ≠ 5 then error Metadata.InvalidSizeKTXswizzle (toString size) c else c

/-- Marks `KTXwriter` as seen. -/
def setFoundWriter (c : ValidationContext) : ValidationContext :=
  { c with foundKTXwriter := true }

/-- Marks `KTXwriterScParams` as seen. -/
def setFoundWriterScParams (c : ValidationContext) : ValidationContext :=
  { c with foundKTXwriterScParams := true }

/-- Marks `KTXanimData` as seen. -/
def setFoundAnimData (c : ValidationContext) : ValidationContext :=
  { c with foundKTXanimData := true }

/-- `ValidationContext::validateKVWriter`: marks the writer as present. -/
def validateKVWriter (c : ValidationContext) (_key : List Nat)
    (_data : List Nat) (_size : Nat) : ValidationContext :=
  setFoundWriter c

/-- `ValidationContext::validateKVWriterScParams`. -/
def validateKVWriterScParams (c : ValidationContext) (_key : List Nat)
    (_data : List Nat) (_size : Nat) : ValidationContext :=
  setFoundWriterScParams c

/-- `ValidationContext::validateKVAstcDecodeMode`: entirely commented out
in the source. -/
def validateKVAstcDecodeMode (c : ValidationContext) (_key : List Nat)
    (_data : List Nat) (_size : Nat) : ValidationContext :=
  c

/-- `ValidationContext::validateKVAnimData`. -/
def validateKVAnimData (c : ValidationContext) (_key : List Nat)
    (_data : List Nat) (size : Nat) : ValidationContext :=
  let c := setFoundAnimData c
  if size ≠ 12 then error Metadata.InvalidSizeKTXanimData (toString size) c else c

/-- Per-entry dispatch over the fixed validator table (`kvValidators`);
unknown `KTX`/`ktx`-prefixed keys are reserved-key errors, any other key
is a custom-metadata warning. -/
def dispatchEntry (e : KeyValueEntry) (c : ValidationContext) : ValidationContext :=
  if e.key = strBytes "KTXcubemapIncomplete" then validateKVCubemapIncomplete c e.key e.data e.size
  else if e.key = strBytes "KTXorientation" then validateKVOrientation c e.key e.data e.size
  else if e.key = strBytes "KTXglFormat" then validateKVGlFormat c e.key e.data e.size
  else if e.key = strBytes "KTXdxgiFormat__" then validateKVDxgiFormat c e.key e.data e.size
  else if e.key = strBytes "KTXmetalPixelFormat" then validateKVMetalPixelFormat c e.key e.data e.size
  else if e.key = strBytes "KTXswizzle" then validateKVSwizzle c e.key e.data e.size
  else if e.key = strBytes "KTXwriter" then validateKVWriter c e.key e.data e.size
  else if e.key = strBytes "KTXwriterScParams" then validateKVWriterScParams c e.key e.data e.size
  else if e.key = strBytes "KTXastcDecodeMode" then validateKVAstcDecodeMode c e.key e.data e.size
  else if e.key = strBytes "KTXanimData" then validateKVAnimData c e.key e.data e.size
  else if starts_with e.key (strBytes "KTX") || starts_with e.key (strBytes "ktx") then
    error Metadata.UnknownReservedKey (toString e.key) c
  else warning Metadata.CustomMetadata (toString e.key) c

/-- Dispatch loop over all parsed entries. -/
def dispatchEntries : List KeyValueEntry → ValidationContext → ValidationContext
  | [], c => c
  | e :: rest, c => dispatchEntries rest (dispatchEntry e c)

/-- The entry-scanning loop of `validateKVD` (`while (ptrEntry < ptrKVDEnd)`).
Fuelled recursion; each iteration advances the entry offset by at least 4
bytes, so fuel `L` never runs out when starting from offset 0 (the fuel-0
branch returns the loop state unchanged, like reaching the guard).
Returns the state, the final entry offset and the collected entries. -/
def scanLoop (kvd : List Nat) (L : Nat) :
    Nat → Nat → Nat → List KeyValueEntry → ValidationContext →
    ValidationContext × Nat × List KeyValueEntry
  | 0, off, _, entries, c => (c, off, entries)
  | fuel + 1, off, numEntry, entries, c =>
    if off < L then
      let numEntry := numEntry + 1
      if numEntry > MAX_NUM_KV_ENTRY then
        (error Metadata.TooManyEntry (toString MAX_NUM_KV_ENTRY) c, off, entries)
      else
        let c := if L - off < 6 then
            error Metadata.NotEnoughDataForAnEntry (toString (L - off)) c
          else c
        if L - off < 4 then (c, off, entries)
        else
          let sizePair0 := u32le kvd off
          let pairOff := off + 4
          let clamped := pairOff + sizePair0 > L
          let c := if clamped then
              error Metadata.KeyValuePairSizeTooBig
                (toString sizePair0 ++ " " ++ toString (L - pairOff)) c
            else c
          let sizePair := if clamped then L - pairOff else sizePair0
          let c := if sizePair < 2 then
              error Metadata.KeyValuePairSizeTooSmall (toString sizePair) c
            else c
          let slice := (kvd.drop pairOff).take sizePair
          let sizeKey := slice.findIdx (fun b => b == 0)
          let keyHasNullTerminator := sizeKey ≠ sizePair
          let key0 := slice.take sizeKey
          let sizeValue := if keyHasNullTerminator then sizePair - sizeKey - 1 else 0
          let vdata := (slice.drop (sizeKey + 1)).take sizeValue
          let bom := starts_with key0 [0xEF, 0xBB, 0xBF]
          let key := if bom then key0.drop 3 else key0
          let c := if bom then error Metadata.KeyForbiddenBOM (toString key) c else c
          let c := match validateUTF8 key with
            | some i => error Metadata.KeyInvalidUTF8 (toString key ++ " " ++ toString i) c
            | none => c
          let c := if ¬ keyHasNullTerminator then
              error Metadata.KeyMissingNullTerminator (toString key) c
            else c
          let entries := entries ++ [⟨key, vdata, sizeValue⟩]
          let off := off + 4 + sizePair
          let c := validatePaddingZeros kvd off L 4 Metadata.PaddingNotZero
              "after a Key-Value entry" c
          scanLoop kvd L fuel (align off 4) numEntry entries c
    else (c, off, entries)

/-- The post-scan KTXwriter presence checks of `validateKVD`
(`if (!foundKTXwriter) ...`), flattened: an error when only
`KTXwriterScParams` was seen, a warning when neither was seen. -/
def writerChecks : List (Check Unit) :=
  [ ⟨fun _ s => !s.foundKTXwriter && s.foundKTXwriterScParams,
      Metadata.NoRequiredKTXwriter, fun _ _ => ""⟩,
    ⟨fun _ s => !s.foundKTXwriter && !s.foundKTXwriterScParams,
      Metadata.NoKTXwriter, fun _ _ => ""⟩ ]

/-- Body of the current `ValidationContext::validateKVD`, abstracted over
the three header fields it consumes (the KVD offset and length and the
SGD length; the header does not change during the stage): seek to the KVD
start (the seek happens before the zero-length test), return when there is
no KVD block, otherwise read and scan the block, run the global order and
uniqueness checks, dispatch the per-key validators and finish with the
KTXwriter presence checks. -/
def validateKVDCore (kvdOff kvdLen sgdLen : Nat) (c : ValidationContext) :
    Except ValidationContext ValidationContext := do
  let c ← seek_to kvdOff "the KVD" c
  if kvdLen = 0 then
    return c
  else
    let kvd ← read kvdLen "the KVD" c
    let (c, ptrEntry, entries) := scanLoop kvd kvdLen kvdLen 0 0 [] c
    let c := if ptrEntry ≠ kvdLen then
        error Metadata.SizesDontAddUp (toString ptrEntry ++ " " ++ toString kvdLen) c
      else c
    let c := if sgdLen ≠ 0 then
        validatePaddingZeros kvd ptrEntry kvdLen 8 Metadata.PaddingNotZero "between KVD and SGD" c
      else c
    let sorted := entriesSorted entries
    let c := if ¬ sorted then error Metadata.OutOfOrder "" c else c
    let entries := if sorted then entries else sortEntries entries
    let c := if ¬ entriesUnique entries then error Metadata.DuplicateKey "" c else c
    let c := dispatchEntries entries c
    let c := runChecks () writerChecks c
    return c

/-- Current `ValidationContext::validateKVD`. -/
def validateKVD (c : ValidationContext) : Except ValidationContext ValidationContext :=
  validateKVDCore c.header.keyValueData.byteOffset c.header.keyValueData.byteLength
    c.header.supercompressionGlobalData.byteLength c

/-- Current `ValidationContext::validate` composed with the fatal-abort
handling of the free `validateMemory` wrapper: header, indices and KVD in
order; a fatal unwinds and yields exit code 3; otherwise the exit code is
3 when any error was counted and 0 otherwise. -/
def validate (c : ValidationContext) : Nat × ValidationContext :=
  match validateHeader c with
  | Except.error c => (3, c)
  | Except.ok c =>
    let c := validateIndices c
    match validateKVD c with
    | Except.error c => (3, c)
    | Except.ok c => (if c.numError > 0 then 3 else 0, c)

/-- Current `validateMemory(data, size, warningsAsErrors, callback)`:
returns the exit code together with the final state (whose `reports` field
is the sequence delivered to the callback). -/
def validateMemory (data : List Nat) (warningsAsErrors : Bool) :
    Nat × ValidationContext :=
  validate (initCtx data warningsAsErrors)

end ktx

-- ---------------------------------------------------------------------------
-- Legacy pipeline (src/tools/ktx/validate.cpp)
-- ---------------------------------------------------------------------------

namespace ktx

/-- Legacy byte reader `read(dst, size, name)`: note the `>=` comparison
(`it + readSize >= data + size`), so a read reaching exactly the end of
the buffer also raises the fatal `UnexpectedEOF`. -/
def legacyRead (readSize : Nat) (name : String) (c : ValidationContext) :
    Except ValidationContext (List Nat) :=
  if c.fileIt + readSize ≥ fileSize c then
    fatal IOError.UnexpectedEOF
      (toString readSize ++ " " ++ toString (readSize - (fileSize c - c.fileIt))
        ++ " " ++ name) c
  else
    Except.ok ((c.fileData.drop c.fileIt).take readSize)

/-- Legacy sink primitive `warning(issue, args...)` (validate.cpp lines
87-97): when `treatWarningsAsError` is set the warning is counted toward
`numError`, but — unlike the current sink — the delivered report carries
the issue's own (warning) severity in *both* branches; the legacy sink
never re-stamps. -/
def legacyWarning (issue : Issue) (details : String) (c : ValidationContext) :
    ValidationContext :=
  if c.treatWarningsAsError then
    { c with numError := c.numError + 1,
             reports := c.reports ++ [⟨issue.type, issue.id, issue.message, details⟩] }
  else
    { c with numWarning := c.numWarning + 1,
             reports := c.reports ++ [⟨issue.type, issue.id, issue.message, details⟩] }

/-- `applyCheck` routed through the legacy sink's `warning`. -/
def legacyApplyCheck {α : Type} (a : α) (ch : Check α) (c : ValidationContext) :
    ValidationContext :=
  if ch.cond a (core c) then
    if ch.issue.type = IssueType.warning then legacyWarning ch.issue (ch.details a (core c)) c
    else error ch.issue (ch.details a (core c)) c
  else c

/-- `runChecks` routed through the legacy sink's `warning`. -/
def legacyRunChecks {α : Type} (a : α) (cs : List (Check α)) (c : ValidationContext) :
    ValidationContext :=
  match cs with
  | [] => c
  | ch :: rest => legacyRunChecks a rest (legacyApplyCheck a ch c)

/-- The vkFormat classification checks of the legacy `validateHeader`
(lines 236-249 of src/tools/ktx/validate.cpp): prohibited check, then for
invalid formats an unsigned range test against
`VK_FORMAT_MAX_STANDARD_ENUM` and the literal `0x10010000`; the gap
`(VK_FORMAT_MAX_STANDARD_ENUM, 0x10010000]` gets the `UnknownFormat`
warning, everything else the `InvalidFormat` error. -/
def legacyVkFormatChecks : List (Check Unit) :=
  [ ⟨fun _ s => isProhibitedFormat s.header.vkFormat,
      HeaderData.ProhibitedFormat, fun _ s => fmtVk s.header.vkFormat⟩,
    ⟨fun _ s => !isValidFormat s.header.vkFormat
        && (decide (s.header.vkFormat ≤ VK_FORMAT_MAX_STANDARD_ENUM)
            || decide (s.header.vkFormat > 0x10010000)),
      HeaderData.InvalidFormat, fun _ s => fmtVk s.header.vkFormat⟩,
    ⟨fun _ s => !isValidFormat s.header.vkFormat
        && !(decide (s.header.vkFormat ≤ VK_FORMAT_MAX_STANDARD_ENUM)
            || decide (s.header.vkFormat > 0x10010000)),
      HeaderData.UnknownFormat, fun _ s => fmtVk s.header.vkFormat⟩,
    ⟨fun _ s => s.header.supercompressionScheme == KTX_SS_BASIS_LZ
        && s.header.vkFormat != 0,
      HeaderData.VkFormatAndBasis, fun _ s => fmtVk s.header.vkFormat⟩ ]

/-- The typeSize and dimension checks of the legacy `validateHeader`
(lines 252-308); depth and stencil formats are reported through two
separate issues here. -/
def legacyDimensionChecks : List (Check Unit) :=
  [ ⟨fun _ s => s.header.vkFormat == 0 && s.header.typeSize != 1,
      HeaderData.TypeSizeNotOne,
      fun _ s => toString s.header.typeSize ++ " " ++ fmtVk s.header.vkFormat⟩,
    ⟨fun _ s => s.header.pixelWidth == 0, HeaderData.WidthZero, fun _ _ => ""⟩,
    ⟨fun _ s => isFormatBlockCompressed s.header.vkFormat && s.header.pixelHeight == 0,
      HeaderData.BlockCompressedNoHeight, fun _ s => fmtVk s.header.vkFormat⟩,
    ⟨fun _ s => s.header.faceCount == 6 && s.header.pixelWidth != s.header.pixelHeight,
      HeaderData.CubeHeightWidthMismatch,
      fun _ s => toString s.header.pixelWidth ++ " " ++ toString s.header.pixelHeight⟩,
    ⟨fun _ s => s.header.pixelDepth != 0 && s.header.pixelHeight == 0,
      HeaderData.DepthNoHeight, fun _ s => toString s.header.pixelDepth⟩,
    ⟨fun _ s => isFormat3DBlockCompressed s.header.vkFormat && s.header.pixelDepth == 0,
      HeaderData.DepthBlockCompressedNoDepth, fun _ s => fmtVk s.header.vkFormat⟩,
    ⟨fun _ s => isFormatDepth s.header.vkFormat && s.header.pixelDepth != 0,
      HeaderData.DepthFormatWithDepth,
      fun _ s => toString s.header.pixelDepth ++ " " ++ fmtVk s.header.vkFormat⟩,
    ⟨fun _ s => isFormatStencil s.header.vkFormat && s.header.pixelDepth != 0,
      HeaderData.StencilFormatWithDepth,
      fun _ s => toString s.header.pixelDepth ++ " " ++ fmtVk s.header.vkFormat⟩,
    ⟨fun _ s => s.header.faceCount == 6 && s.header.pixelDepth != 0,
      HeaderData.CubeWithDepth, fun _ s => toString s.header.pixelDepth⟩,
    ⟨fun _ s => s.header.pixelDepth != 0 && s.header.layerCount != 0,
      HeaderData.ThreeDArray, fun _ _ => ""⟩ ]

/-- The faceCount check of the legacy `validateHeader` (line 328). -/
def legacyFaceChecks : List (Check Unit) :=
  [ ⟨fun _ s => s.header.faceCount != 6 && s.header.faceCount != 1,
      HeaderData.InvalidFaceCount, fun _ s => toString s.header.faceCount⟩ ]

/-- The levelCount and supercompression checks of the legacy
`validateHeader` (lines 336-351), after the member `levelCount` was set to
`max(header.levelCount, 1)`.  The `BlockCompressedNoLevel` check tests the
member `levelCount` (never 0), and the vendor range test is strict at the
lower bound (`KTX_SS_BEGIN_VENDOR_RANGE < scheme`). -/
def legacyLevelSchemeChecks : List (Check Unit) :=
  [ ⟨fun _ s => decide (maxDim s.header < 2 ^ (s.levelCount - 1) % 2 ^ 32),
      HeaderData.TooManyMipLevels,
      fun _ s => toString s.levelCount ++ " " ++ toString (maxDim s.header)⟩,
    ⟨fun _ s => isFormatBlockCompressed s.header.vkFormat && s.levelCount == 0,
      HeaderData.BlockCompressedNoLevel, fun _ s => fmtVk s.header.vkFormat⟩,
    ⟨fun _ s => decide (KTX_SS_BEGIN_VENDOR_RANGE < s.header.supercompressionScheme)
        && decide (s.header.supercompressionScheme ≤ KTX_SS_END_VENDOR_RANGE),
      HeaderData.VendorSupercompression, fun _ s => toString s.header.supercompressionScheme⟩,
    ⟨fun _ s => !(decide (KTX_SS_BEGIN_VENDOR_RANGE < s.header.supercompressionScheme)
          && decide (s.header.supercompressionScheme ≤ KTX_SS_END_VENDOR_RANGE))
        && decide (KTX_SS_END_RANGE < s.header.supercompressionScheme),
      HeaderData.InvalidSupercompression, fun _ s => toString s.header.supercompressionScheme⟩ ]

/-- The pure tail of the legacy `validateHeader` after parse and
identifier match. -/
def legacyHeaderChecks (c : ValidationContext) : ValidationContext :=
  let c := legacyRunChecks () legacyVkFormatChecks c
  let c := legacyRunChecks () legacyDimensionChecks c
  let c := setDimensionCount c
  let c := setLayerCount c
  let c := legacyRunChecks () legacyFaceChecks c
  let c := setLevelCount c
  legacyRunChecks () legacyLevelSchemeChecks c

/-- Legacy `ValidationContext::validateHeader`. -/
def legacyValidateHeader (c : ValidationContext) :
    Except ValidationContext ValidationContext := do
  let bytes ← legacyRead 80 "the header" c
  let c := { c with header := parseHeader bytes }
  if c.header.identifier ≠ ktx2_identifier_reference then
    fatal FileError.NotKTX2 "" c
  else
    Except.ok (legacyHeaderChecks c)

/-- Legacy `ValidationContext::validate` with the wrapper's fatal-abort
handling; `validateIndices` of the legacy file is entirely commented out
and does nothing. -/
def legacyValidate (c : ValidationContext) : Nat × ValidationContext :=
  match legacyValidateHeader c with
  | Except.error c => (3, c)
  | Except.ok c => (if c.numError > 0 then 3 else 0, c)

/-- Legacy `validateMemory(data, size, warningsAsErrors, callback)`. -/
def legacyValidateMemory (data : List Nat) (warningsAsErrors : Bool) :
    Nat × ValidationContext :=
  legacyValidate (initCtx data warningsAsErrors)

end ktx

-- ---------------------------------------------------------------------------
-- Specification predicates and concrete inputs
-- ---------------------------------------------------------------------------

namespace ktx

/-- Sink bookkeeping invariant: the error counter equals the number of
delivered error- or fatal-severity reports, and the warning counter the
number of delivered warning-severity reports. -/
def INV (c : ValidationContext) : Prop :=
  c.numError = countErrors c.reports ∧ c.numWarning = countWarnings c.reports

/-- Simulation relation between a run with `warningsAsErrors` set (left)
and the same run without it (right): the two runs agree on everything
except the sink state, the left report stream is the right one with every
warning re-stamped to error severity, and the left error counter absorbs
the right warning counter. -/
def Rel (c1 c2 : ValidationContext) : Prop :=
  core c1 = core c2
  ∧ c1.treatWarningsAsError = true
  ∧ c2.treatWarningsAsError = false
  ∧ c1.reports = c2.reports.map restampWarning
  ∧ c1.numError = c2.numError + c2.numWarning
  ∧ c1.numWarning = 0

/-- Lifts `INV` over a possibly-fatal stage result, recording that a
thrown state has a positive error count (the fatal was counted). -/
def INVR (r : Except ValidationContext ValidationContext) : Prop :=
  match r with
  | Except.ok c => INV c
  | Except.error c => INV c ∧ 0 < c.numError

/-- Lifts `Rel` over two possibly-fatal stage results: the two runs take
the same branch. -/
def RelR (r1 r2 : Except ValidationContext ValidationContext) : Prop :=
  match r1, r2 with
  | Except.ok a, Except.ok b => Rel a b
  | Except.error a, Except.error b => Rel a b
  | _, _ => False

-- Concrete inputs for witnesses and counterexamples.

/-- Little-endian bytes of a 32-bit value. -/
def u32b (v : Nat) : List Nat :=
  [v % 256, v / 256 % 256, v / 65536 % 256, v / 16777216 % 256]

/-- Little-endian bytes of a 64-bit value. -/
def u64b (v : Nat) : List Nat :=
  u32b (v % 4294967296) ++ u32b (v / 4294967296)

/-- Serialises an 80-byte KTX2 header with the reference identifier. -/
def mkHeaderBytes (vk ts w h d lay face lvl ss dfdO dfdL kvdO kvdL sgdO sgdL : Nat) :
    List Nat :=
  ktx2_identifier_reference ++ u32b vk ++ u32b ts ++ u32b w ++ u32b h ++ u32b d ++ u32b lay
    ++ u32b face ++ u32b lvl ++ u32b ss ++ u32b dfdO ++ u32b dfdL ++ u32b kvdO ++ u32b kvdL
    ++ u64b sgdO ++ u64b sgdL

/-- Minimal otherwise-valid 2D RGBA8 (vkFormat 37) 1x1 file with one
level, a 16-byte level index, a 4-byte DFD region at offset 96 and an
empty key/value-data index: 100 bytes. -/
def minimalValidFile : List Nat :=
  mkHeaderBytes 37 1 1 1 0 0 1 1 0 96 4 0 0 0 0 ++ List.replicate 16 0 ++ List.replicate 4 0

/-- Valid header whose key/value-data index has byteLength 0 but
byteOffset 96, beyond the 80-byte file. -/
def kvdSeekFile : List Nat :=
  mkHeaderBytes 0 0 0 0 0 0 0 0 0 0 0 96 0 0 0

/-- Header with vkFormat 500 — inside the gap between
`VK_FORMAT_MAX_STANDARD_ENUM` and 1000001000 — padded to 81 bytes so the
legacy reader accepts the header read. -/
def format500File : List Nat :=
  mkHeaderBytes 500 0 0 0 0 0 0 0 0 0 0 0 0 0 0 ++ [0]

/-- Otherwise-clean header with vkFormat 500 and valid dimensions (1x1,
one face, one level, typeSize 1), padded to 81 bytes so the legacy reader
accepts the header read: the only diagnostic the legacy pipeline raises on
it is the `UnknownFormat` warning. -/
def legacyWarnFile : List Nat :=
  mkHeaderBytes 500 1 1 1 0 0 1 1 0 0 0 0 0 0 0 ++ [0]

/-- Header with levelCount 33 and pixelWidth 4: effectiveLevelCount 33,
max dimension 4. -/
def levels33File : List Nat :=
  mkHeaderBytes 37 1 4 0 0 0 1 33 0 96 4 0 0 0 0

/-- Context for unit-level metadata runs: empty buffer, dimensionCount 1
(a 1-dimensional texture), effective layerCount 1, faceCount 1, square
1x1, as the header validator would derive for such a texture. -/
def unitHeader : KTX_header2 :=
  { zeroHeader with faceCount := 1, pixelWidth := 1, pixelHeight := 1,
                    typeSize := 1, vkFormat := 37, levelCount := 1 }

def unitCtx : ValidationContext :=
  { (initCtx [] false) with
      dimensionCount := 1, layerCount := 1, levelCount := 1, header := unitHeader }

/-- Context whose header carries vkFormat 500 — in the gap between the
last standard format value and the first extension format value — with an
otherwise zero header. -/
def gapFormatCtx : ValidationContext :=
  { (initCtx [] false) with header := { zeroHeader with vkFormat := 500 } }

/-- Context with the derived `levelCount` member consistent with its
header (as `validateHeader` leaves it), used to witness the index
continuity characterisation: one level, DFD at 96 of length 4, KVD at 104
of length 8, SGD absent, in a 112-byte-file-sized buffer. -/
def indicesCtx : ValidationContext :=
  { (initCtx (List.replicate 112 0) false) with
      layerCount := 1, levelCount := 1, dimensionCount := 2,
      header := { zeroHeader with
                    identifier := ktx2_identifier_reference,
                    vkFormat := 37, typeSize := 1, pixelWidth := 1, pixelHeight := 1,
                    levelCount := 1, faceCount := 1,
                    dataFormatDescriptor := ⟨96, 4⟩,
                    keyValueData := ⟨104, 8⟩,
                    supercompressionGlobalData := ⟨0, 0⟩ } }

end ktx

-- ---------------------------------------------------------------------------
-- Basic lemmas: counters vs reports, primitive preservation
-- ---------------------------------------------------------------------------

namespace ktx

theorem countId_append (n : Nat) (a b : List ValidationReport) :
    countId n (a ++ b) = countId n a + countId n b := by
  simp [countId, List.countP_append]

theorem countErrors_append (a b : List ValidationReport) :
    countErrors (a ++ b) = countErrors a + countErrors b := by
  simp [countErrors, List.countP_append]

theorem countWarnings_append (a b : List ValidationReport) :
    countWarnings (a ++ b) = countWarnings a + countWarnings b := by
  simp [countWarnings, List.countP_append]

theorem countErrors_single (r : ValidationReport) :
    countErrors [r] = if r.type = IssueType.warning then 0 else 1 := by
  cases r with
  | mk t i m d => cases t <;> simp [countErrors, List.countP_cons, List.countP_nil]

theorem countWarnings_single (r : ValidationReport) :
    countWarnings [r] = if r.type = IssueType.warning then 1 else 0 := by
  cases r with
  | mk t i m d => cases t <;> simp [countWarnings, List.countP_cons, List.countP_nil]

theorem countId_single (n : Nat) (r : ValidationReport) :
    countId n [r] = if r.id = n then 1 else 0 := by
  by_cases h : r.id = n <;> simp [countId, List.countP_cons, List.countP_nil, h]

/-- `INV` is preserved by the `error` primitive on non-warning issues. -/
theorem INV_error {c : ValidationContext} {i : Issue} {d : String}
    (ht : i.type ≠ IssueType.warning) (h : INV c) : INV (error i d c) := by
  obtain ⟨h1, h2⟩ := h
  refine ⟨?_, ?_⟩ <;>
    simp [error, countErrors_append, countWarnings_append, countErrors_single,
          countWarnings_single, h1, h2, ht]

/-- `INV` is preserved by the `warning` primitive on warning issues. -/
theorem INV_warning {c : ValidationContext} {i : Issue} {d : String}
    (ht : i.type = IssueType.warning) (h : INV c) : INV (warning i d c) := by
  obtain ⟨h1, h2⟩ := h
  by_cases hf : c.treatWarningsAsError <;>
    refine ⟨?_, ?_⟩ <;>
      simp [warning, hf, countErrors_append, countWarnings_append, countErrors_single,
            countWarnings_single, h1, h2, ht]

/-- `INV` is preserved by the state delivered before a fatal throw, and
the fatal was counted. -/
theorem INV_fatalCtx {c : ValidationContext} {i : Issue} {d : String}
    (ht : i.type ≠ IssueType.warning) (h : INV c) :
    INV (fatalCtx i d c) ∧ 0 < (fatalCtx i d c).numError := by
  obtain ⟨h1, h2⟩ := h
  refine ⟨⟨?_, ?_⟩, ?_⟩ <;>
    simp [fatalCtx, countErrors_append, countWarnings_append, countErrors_single,
          countWarnings_single, h1, h2, ht]

end ktx

namespace ktx

theorem core_error (i : Issue) (d : String) (c : ValidationContext) :
    core (error i d c) = core c := rfl

theorem core_fatalCtx (i : Issue) (d : String) (c : ValidationContext) :
    core (fatalCtx i d c) = core c := rfl

theorem core_warning (i : Issue) (d : String) (c : ValidationContext) :
    core (warning i d c) = core c := by
  unfold warning
  split <;> rfl

theorem core_applyCheck {α : Type} (a : α) (ch : Check α) (c : ValidationContext) :
    core (applyCheck a ch c) = core c := by
  unfold applyCheck
  split
  · split
    · exact core_warning ..
    · rfl
  · rfl

theorem core_runChecks {α : Type} (a : α) (cs : List (Check α)) (c : ValidationContext) :
    core (runChecks a cs c) = core c := by
  induction cs generalizing c with
  | nil => rfl
  | cons ch rest ih => rw [runChecks, ih, core_applyCheck]

theorem INV_applyCheck {α : Type} {a : α} {ch : Check α} {c : ValidationContext}
    (h : INV c) : INV (applyCheck a ch c) := by
  unfold applyCheck
  split
  · split
    · exact INV_warning (by assumption) h
    · exact INV_error (by assumption) h
  · exact h

theorem INV_runChecks {α : Type} {a : α} {cs : List (Check α)} {c : ValidationContext}
    (h : INV c) : INV (runChecks a cs c) := by
  induction cs generalizing c with
  | nil => exact h
  | cons ch rest ih => exact ih (INV_applyCheck h)

theorem restampWarning_of_ne {t : IssueType} (i m : _) (d : String)
    (ht : t ≠ IssueType.warning) :
    restampWarning ⟨t, i, m, d⟩ = ⟨t, i, m, d⟩ := by
  cases t <;> simp_all [restampWarning]

theorem Rel_error {c1 c2 : ValidationContext} {i : Issue} {d : String}
    (ht : i.type ≠ IssueType.warning) (h : Rel c1 c2) : Rel (error i d c1) (error i d c2) := by
  obtain ⟨hc, hf1, hf2, hr, he, hw⟩ := h
  refine ⟨hc, hf1, hf2, ?_, ?_, hw⟩
  · simp [error, hr, restampWarning_of_ne _ _ _ ht]
  · simp [error]
    omega

theorem Rel_warning {c1 c2 : ValidationContext} {i : Issue} {d : String}
    (ht : i.type = IssueType.warning) (h : Rel c1 c2) :
    Rel (warning i d c1) (warning i d c2) := by
  obtain ⟨hc, hf1, hf2, hr, he, hw⟩ := h
  refine ⟨?_, ?_, ?_, ?_, ?_, ?_⟩
  · rw [core_warning, core_warning]
    exact hc
  · simp [warning, hf1]
  · simp [warning, hf2]
  · simp [warning, hf1, hf2, hr, ht, restampWarning]
  · simp [warning, hf1, hf2]
    omega
  · simp [warning, hf1, hf2, hw]

theorem Rel_fatalCtx {c1 c2 : ValidationContext} {i : Issue} {d : String}
    (ht : i.type ≠ IssueType.warning) (h : Rel c1 c2) :
    Rel (fatalCtx i d c1) (fatalCtx i d c2) := by
  obtain ⟨hc, hf1, hf2, hr, he, hw⟩ := h
  refine ⟨hc, hf1, hf2, ?_, ?_, hw⟩
  · simp [fatalCtx, hr, restampWarning_of_ne _ _ _ ht]
  · simp [fatalCtx]
    omega

theorem Rel_applyCheck {α : Type} {a : α} {ch : Check α} {c1 c2 : ValidationContext}
    (h : Rel c1 c2) : Rel (applyCheck a ch c1) (applyCheck a ch c2) := by
  have hcore : core c1 = core c2 := h.1
  unfold applyCheck
  rw [hcore]
  split
  · split
    · exact Rel_warning (by assumption) h
    · exact Rel_error (by assumption) h
  · exact h

theorem Rel_runChecks {α : Type} {a : α} {cs : List (Check α)} {c1 c2 : ValidationContext}
    (h : Rel c1 c2) : Rel (runChecks a cs c1) (runChecks a cs c2) := by
  induction cs generalizing c1 c2 with
  | nil => exact h
  | cons ch rest ih => exact ih (Rel_applyCheck h)

end ktx


namespace ktx

theorem header_congr {c1 c2 : ValidationContext} (h : core c1 = core c2) :
    c1.header = c2.header := congrArg CoreState.header h

theorem fileData_congr {c1 c2 : ValidationContext} (h : core c1 = core c2) :
    c1.fileData = c2.fileData := congrArg CoreState.fileData h

theorem fileIt_congr {c1 c2 : ValidationContext} (h : core c1 = core c2) :
    c1.fileIt = c2.fileIt := congrArg CoreState.fileIt h

theorem levelCount_congr {c1 c2 : ValidationContext} (h : core c1 = core c2) :
    c1.levelCount = c2.levelCount := congrArg CoreState.levelCount h

theorem INV_setDimensionCount {c : ValidationContext} (h : INV c) :
    INV (setDimensionCount c) := h

theorem INV_setLayerCount {c : ValidationContext} (h : INV c) :
    INV (setLayerCount c) := h

theorem INV_setLevelCount {c : ValidationContext} (h : INV c) :
    INV (setLevelCount c) := h

theorem Rel_setDimensionCount {c1 c2 : ValidationContext} (h : Rel c1 c2) :
    Rel (setDimensionCount c1) (setDimensionCount c2) := by
  obtain ⟨hc, f1, f2, r, e, w⟩ := h
  have hH : c1.header = c2.header := header_congr hc
  refine ⟨?_, f1, f2, r, e, w⟩
  simp only [setDimensionCount, core, CoreState.mk.injEq, hH] at hc ⊢
  tauto

theorem Rel_setLayerCount {c1 c2 : ValidationContext} (h : Rel c1 c2) :
    Rel (setLayerCount c1) (setLayerCount c2) := by
  obtain ⟨hc, f1, f2, r, e, w⟩ := h
  have hH : c1.header = c2.header := header_congr hc
  refine ⟨?_, f1, f2, r, e, w⟩
  simp only [setLayerCount, core, CoreState.mk.injEq, hH] at hc ⊢
  tauto

theorem Rel_setLevelCount {c1 c2 : ValidationContext} (h : Rel c1 c2) :
    Rel (setLevelCount c1) (setLevelCount c2) := by
  obtain ⟨hc, f1, f2, r, e, w⟩ := h
  have hH : c1.header = c2.header := header_congr hc
  refine ⟨?_, f1, f2, r, e, w⟩
  simp only [setLevelCount, core, CoreState.mk.injEq, hH] at hc ⊢
  tauto

theorem INV_headerChecks {c : ValidationContext} (h : INV c) : INV (headerChecks c) := by
  simp only [headerChecks]
  exact INV_runChecks (INV_setLevelCount (INV_runChecks (INV_setLayerCount
    (INV_setDimensionCount (INV_runChecks (INV_runChecks h))))))

theorem Rel_headerChecks {c1 c2 : ValidationContext} (h : Rel c1 c2) :
    Rel (headerChecks c1) (headerChecks c2) := by
  simp only [headerChecks]
  exact Rel_runChecks (Rel_setLevelCount (Rel_runChecks (Rel_setLayerCount
    (Rel_setDimensionCount (Rel_runChecks (Rel_runChecks h))))))

end ktx

namespace ktx

theorem Rel_setHeader {c1 c2 : ValidationContext} {h1 h2 : KTX_header2}
    (h : Rel c1 c2) (hx : h1 = h2) :
    Rel { c1 with header := h1 } { c2 with header := h2 } := by
  subst hx
  obtain ⟨hc, f1, f2, r, e, w⟩ := h
  refine ⟨?_, f1, f2, r, e, w⟩
  simp only [core, CoreState.mk.injEq] at hc ⊢
  tauto

theorem INV_read_error {sz : Nat} {n : String} {c e : ValidationContext}
    (hr : read sz n c = Except.error e) (h : INV c) : INV e ∧ 0 < e.numError := by
  unfold read at hr
  split at hr
  · cases hr
    exact INV_fatalCtx (by decide) h
  · cases hr

theorem INV_seek {t : Nat} {n : String} {c : ValidationContext}
    (h : INV c) : INVR (seek_to t n c) := by
  unfold seek_to
  split
  · exact INV_fatalCtx (by decide) h
  · exact h

theorem INV_validateHeader {c : ValidationContext} (h : INV c) :
    INVR (validateHeader c) := by
  unfold validateHeader
  cases hread : read 80 "the header" c with
  | error e =>
    simp only [hread, bind, Except.bind]
    exact INV_read_error hread h
  | ok bytes =>
    simp only [hread, bind, Except.bind]
    split
    · exact INV_fatalCtx (by decide) h
    · exact INV_headerChecks h

theorem Rel_validateHeader {c1 c2 : ValidationContext} (h : Rel c1 c2) :
    RelR (validateHeader c1) (validateHeader c2) := by
  have hd := fileData_congr h.1
  have hi := fileIt_congr h.1
  by_cases hcond : c2.fileIt + 80 > c2.fileData.length
  · have h1 : read 80 "the header" c1 = Except.error
        (fatalCtx IOError.UnexpectedEOF
          (eofDetails 80 "the header" (c2.fileData.length - c2.fileIt)) c1) := by
      simp [read, fileSize, fatal, hd, hi, hcond]
    have h2 : read 80 "the header" c2 = Except.error
        (fatalCtx IOError.UnexpectedEOF
          (eofDetails 80 "the header" (c2.fileData.length - c2.fileIt)) c2) := by
      simp [read, fileSize, fatal, hcond]
    unfold validateHeader
    rw [h1, h2]
    simp only [bind, Except.bind]
    exact Rel_fatalCtx (by decide) h
  · have h1 : read 80 "the header" c1 =
        Except.ok ((c2.fileData.drop c2.fileIt).take 80) := by
      simp [read, fileSize, hd, hi, hcond]
    have h2 : read 80 "the header" c2 =
        Except.ok ((c2.fileData.drop c2.fileIt).take 80) := by
      simp [read, fileSize, hcond]
    unfold validateHeader
    rw [h1, h2]
    simp only [bind, Except.bind]
    split
    · exact Rel_fatalCtx (by decide) (Rel_setHeader h rfl)
    · exact Rel_headerChecks (Rel_setHeader h rfl)

theorem INV_validateIndices {c : ValidationContext} (h : INV c) :
    INV (validateIndices c) := INV_runChecks h

theorem Rel_validateIndices {c1 c2 : ValidationContext} (h : Rel c1 c2) :
    Rel (validateIndices c1) (validateIndices c2) := Rel_runChecks h

end ktx

namespace ktx

theorem INV_errorIf {P : Prop} [Decidable P] {c : ValidationContext} {i : Issue} {d : String}
    (ht : i.type ≠ IssueType.warning) (h : INV c) :
    INV (if P then error i d c else c) := by
  split
  · exact INV_error ht h
  · exact h

theorem Rel_errorIf {P : Prop} [Decidable P] {c1 c2 : ValidationContext} {i : Issue} {d : String}
    (ht : i.type ≠ IssueType.warning) (h : Rel c1 c2) :
    Rel (if P then error i d c1 else c1) (if P then error i d c2 else c2) := by
  split
  · exact Rel_error ht h
  · exact h

theorem INV_padLoop {kvd : List Nat} {issue : Issue} {after : String}
    (ht : issue.type ≠ IssueType.warning) :
    ∀ (k pos : Nat) {c : ValidationContext}, INV c → INV (padLoop kvd issue after k pos c) := by
  intro k
  induction k with
  | zero => intro pos c h; exact h
  | succ k ih =>
    intro pos c h
    rw [padLoop]
    exact ih _ (INV_errorIf ht h)

theorem Rel_padLoop {kvd : List Nat} {issue : Issue} {after : String}
    (ht : issue.type ≠ IssueType.warning) :
    ∀ (k pos : Nat) {c1 c2 : ValidationContext}, Rel c1 c2 →
      Rel (padLoop kvd issue after k pos c1) (padLoop kvd issue after k pos c2) := by
  intro k
  induction k with
  | zero => intro pos c1 c2 h; exact h
  | succ k ih =>
    intro pos c1 c2 h
    rw [padLoop, padLoop]
    exact ih _ (Rel_errorIf ht h)

theorem INV_validatePaddingZeros {kvd : List Nat} {off bufEnd alignment : Nat} {issue : Issue}
    {after : String} {c : ValidationContext}
    (ht : issue.type ≠ IssueType.warning) (h : INV c) :
    INV (validatePaddingZeros kvd off bufEnd alignment issue after c) :=
  INV_padLoop ht _ _ h

theorem Rel_validatePaddingZeros {kvd : List Nat} {off bufEnd alignment : Nat} {issue : Issue}
    {after : String} {c1 c2 : ValidationContext}
    (ht : issue.type ≠ IssueType.warning) (h : Rel c1 c2) :
    Rel (validatePaddingZeros kvd off bufEnd alignment issue after c1)
      (validatePaddingZeros kvd off bufEnd alignment issue after c2) :=
  Rel_padLoop ht _ _ h

-- Flag setters.

theorem INV_setFoundCubemapIncomplete {c : ValidationContext} (h : INV c) :
    INV (setFoundCubemapIncomplete c) := h

theorem INV_setFoundWriter {c : ValidationContext} (h : INV c) :
    INV (setFoundWriter c) := h

theorem INV_setFoundWriterScParams {c : ValidationContext} (h : INV c) :
    INV (setFoundWriterScParams c) := h

theorem INV_setFoundAnimData {c : ValidationContext} (h : INV c) :
    INV (setFoundAnimData c) := h

theorem Rel_setFoundCubemapIncomplete {c1 c2 : ValidationContext} (h : Rel c1 c2) :
    Rel (setFoundCubemapIncomplete c1) (setFoundCubemapIncomplete c2) := by
  obtain ⟨hc, f1, f2, r, e, w⟩ := h
  refine ⟨?_, f1, f2, r, e, w⟩
  simp only [setFoundCubemapIncomplete, core, CoreState.mk.injEq] at hc ⊢
  tauto

theorem Rel_setFoundWriter {c1 c2 : ValidationContext} (h : Rel c1 c2) :
    Rel (setFoundWriter c1) (setFoundWriter c2) := by
  obtain ⟨hc, f1, f2, r, e, w⟩ := h
  refine ⟨?_, f1, f2, r, e, w⟩
  simp only [setFoundWriter, core, CoreState.mk.injEq] at hc ⊢
  tauto

theorem Rel_setFoundWriterScParams {c1 c2 : ValidationContext} (h : Rel c1 c2) :
    Rel (setFoundWriterScParams c1) (setFoundWriterScParams c2) := by
  obtain ⟨hc, f1, f2, r, e, w⟩ := h
  refine ⟨?_, f1, f2, r, e, w⟩
  simp only [setFoundWriterScParams, core, CoreState.mk.injEq] at hc ⊢
  tauto

theorem Rel_setFoundAnimData {c1 c2 : ValidationContext} (h : Rel c1 c2) :
    Rel (setFoundAnimData c1) (setFoundAnimData c2) := by
  obtain ⟨hc, f1, f2, r, e, w⟩ := h
  refine ⟨?_, f1, f2, r, e, w⟩
  simp only [setFoundAnimData, core, CoreState.mk.injEq] at hc ⊢
  tauto

-- Per-key validators.

theorem INV_validateKVCubemapIncomplete {c : ValidationContext} {k d : List Nat} {sz : Nat}
    (h : INV c) : INV (validateKVCubemapIncomplete c k d sz) := by
  unfold validateKVCubemapIncomplete
  split
  · exact INV_runChecks (INV_setFoundCubemapIncomplete h)
  · exact INV_runChecks (INV_runChecks (INV_setFoundCubemapIncomplete h))

theorem Rel_validateKVCubemapIncomplete {c1 c2 : ValidationContext} {k d : List Nat} {sz : Nat}
    (h : Rel c1 c2) :
    Rel (validateKVCubemapIncomplete c1 k d sz) (validateKVCubemapIncomplete c2 k d sz) := by
  unfold validateKVCubemapIncomplete
  split
  · exact Rel_runChecks (Rel_setFoundCubemapIncomplete h)
  · exact Rel_runChecks (Rel_runChecks (Rel_setFoundCubemapIncomplete h))

theorem INV_validateKVOrientation {c : ValidationContext} {k d : List Nat} {sz : Nat}
    (h : INV c) : INV (validateKVOrientation c k d sz) := by
  unfold validateKVOrientation
  exact INV_errorIf (by decide) h

theorem Rel_validateKVOrientation {c1 c2 : ValidationContext} {k d : List Nat} {sz : Nat}
    (h : Rel c1 c2) :
    Rel (validateKVOrientation c1 k d sz) (validateKVOrientation c2 k d sz) := by
  unfold validateKVOrientation
  exact Rel_errorIf (by decide) h

theorem INV_validateKVGlFormat {c : ValidationContext} {k d : List Nat} {sz : Nat}
    (h : INV c) : INV (validateKVGlFormat c k d sz) := INV_errorIf (by decide) h

theorem INV_validateKVDxgiFormat {c : ValidationContext} {k d : List Nat} {sz : Nat}
    (h : INV c) : INV (validateKVDxgiFormat c k d sz) := INV_errorIf (by decide) h

theorem INV_validateKVMetalPixelFormat {c : ValidationContext} {k d : List Nat} {sz : Nat}
    (h : INV c) : INV (validateKVMetalPixelFormat c k d sz) := INV_errorIf (by decide) h

theorem INV_validateKVSwizzle {c : ValidationContext} {k d : List Nat} {sz : Nat}
    (h : INV c) : INV (validateKVSwizzle c k d sz) := INV_errorIf (by decide) h

theorem INV_validateKVAnimData {c : ValidationContext} {k d : List Nat} {sz : Nat}
    (h : INV c) : INV (validateKVAnimData c k d sz) :=
  INV_errorIf (by decide) (INV_setFoundAnimData h)

theorem Rel_validateKVGlFormat {c1 c2 : ValidationContext} {k d : List Nat} {sz : Nat}
    (h : Rel c1 c2) : Rel (validateKVGlFormat c1 k d sz) (validateKVGlFormat c2 k d sz) :=
  Rel_errorIf (by decide) h

theorem Rel_validateKVDxgiFormat {c1 c2 : ValidationContext} {k d : List Nat} {sz : Nat}
    (h : Rel c1 c2) : Rel (validateKVDxgiFormat c1 k d sz) (validateKVDxgiFormat c2 k d sz) :=
  Rel_errorIf (by decide) h

theorem Rel_validateKVMetalPixelFormat {c1 c2 : ValidationContext} {k d : List Nat} {sz : Nat}
    (h : Rel c1 c2) :
    Rel (validateKVMetalPixelFormat c1 k d sz) (validateKVMetalPixelFormat c2 k d sz) :=
  Rel_errorIf (by decide) h

theorem Rel_validateKVSwizzle {c1 c2 : ValidationContext} {k d : List Nat} {sz : Nat}
    (h : Rel c1 c2) : Rel (validateKVSwizzle c1 k d sz) (validateKVSwizzle c2 k d sz) :=
  Rel_errorIf (by decide) h

theorem Rel_validateKVAnimData {c1 c2 : ValidationContext} {k d : List Nat} {sz : Nat}
    (h : Rel c1 c2) : Rel (validateKVAnimData c1 k d sz) (validateKVAnimData c2 k d sz) :=
  Rel_errorIf (by decide) (Rel_setFoundAnimData h)

theorem INV_dispatchEntry {e : KeyValueEntry} {c : ValidationContext} (h : INV c) :
    INV (dispatchEntry e c) := by
  unfold dispatchEntry
  by_cases h1 : e.key = strBytes "KTXcubemapIncomplete"
  · rw [if_pos h1]; exact INV_validateKVCubemapIncomplete h
  rw [if_neg h1]
  by_cases h2 : e.key = strBytes "KTXorientation"
  · rw [if_pos h2]; exact INV_validateKVOrientation h
  rw [if_neg h2]
  by_cases h3 : e.key = strBytes "KTXglFormat"
  · rw [if_pos h3]; exact INV_validateKVGlFormat h
  rw [if_neg h3]
  by_cases h4 : e.key = strBytes "KTXdxgiFormat__"
  · rw [if_pos h4]; exact INV_validateKVDxgiFormat h
  rw [if_neg h4]
  by_cases h5 : e.key = strBytes "KTXmetalPixelFormat"
  · rw [if_pos h5]; exact INV_validateKVMetalPixelFormat h
  rw [if_neg h5]
  by_cases h6 : e.key = strBytes "KTXswizzle"
  · rw [if_pos h6]; exact INV_validateKVSwizzle h
  rw [if_neg h6]
  by_cases h7 : e.key = strBytes "KTXwriter"
  · rw [if_pos h7]; exact INV_setFoundWriter h
  rw [if_neg h7]
  by_cases h8 : e.key = strBytes "KTXwriterScParams"
  · rw [if_pos h8]; exact INV_setFoundWriterScParams h
  rw [if_neg h8]
  by_cases h9 : e.key = strBytes "KTXastcDecodeMode"
  · rw [if_pos h9]; exact h
  rw [if_neg h9]
  by_cases h10 : e.key = strBytes "KTXanimData"
  · rw [if_pos h10]; exact INV_validateKVAnimData h
  rw [if_neg h10]
  by_cases h11 : (starts_with e.key (strBytes "KTX") || starts_with e.key (strBytes "ktx")) = true
  · rw [if_pos h11]; exact INV_error (by decide) h
  · rw [if_neg h11]; exact INV_warning (by decide) h

theorem Rel_dispatchEntry {e : KeyValueEntry} {c1 c2 : ValidationContext} (h : Rel c1 c2) :
    Rel (dispatchEntry e c1) (dispatchEntry e c2) := by
  unfold dispatchEntry
  by_cases h1 : e.key = strBytes "KTXcubemapIncomplete"
  · rw [if_pos h1, if_pos h1]; exact Rel_validateKVCubemapIncomplete h
  rw [if_neg h1, if_neg h1]
  by_cases h2 : e.key = strBytes "KTXorientation"
  · rw [if_pos h2, if_pos h2]; exact Rel_validateKVOrientation h
  rw [if_neg h2, if_neg h2]
  by_cases h3 : e.key = strBytes "KTXglFormat"
  · rw [if_pos h3, if_pos h3]; exact Rel_validateKVGlFormat h
  rw [if_neg h3, if_neg h3]
  by_cases h4 : e.key = strBytes "KTXdxgiFormat__"
  · rw [if_pos h4, if_pos h4]; exact Rel_validateKVDxgiFormat h
  rw [if_neg h4, if_neg h4]
  by_cases h5 : e.key = strBytes "KTXmetalPixelFormat"
  · rw [if_pos h5, if_pos h5]; exact Rel_validateKVMetalPixelFormat h
  rw [if_neg h5, if_neg h5]
  by_cases h6 : e.key = strBytes "KTXswizzle"
  · rw [if_pos h6, if_pos h6]; exact Rel_validateKVSwizzle h
  rw [if_neg h6, if_neg h6]
  by_cases h7 : e.key = strBytes "KTXwriter"
  · rw [if_pos h7, if_pos h7]; exact Rel_setFoundWriter h
  rw [if_neg h7, if_neg h7]
  by_cases h8 : e.key = strBytes "KTXwriterScParams"
  · rw [if_pos h8, if_pos h8]; exact Rel_setFoundWriterScParams h
  rw [if_neg h8, if_neg h8]
  by_cases h9 : e.key = strBytes "KTXastcDecodeMode"
  · rw [if_pos h9, if_pos h9]; exact h
  rw [if_neg h9, if_neg h9]
  by_cases h10 : e.key = strBytes "KTXanimData"
  · rw [if_pos h10, if_pos h10]; exact Rel_validateKVAnimData h
  rw [if_neg h10, if_neg h10]
  by_cases h11 : (starts_with e.key (strBytes "KTX") || starts_with e.key (strBytes "ktx")) = true
  · rw [if_pos h11, if_pos h11]; exact Rel_error (by decide) h
  · rw [if_neg h11, if_neg h11]; exact Rel_warning (by decide) h

theorem INV_dispatchEntries {es : List KeyValueEntry} :
    ∀ {c : ValidationContext}, INV c → INV (dispatchEntries es c) := by
  induction es with
  | nil => intro c h; exact h
  | cons e rest ih => intro c h; exact ih (INV_dispatchEntry h)

theorem Rel_dispatchEntries {es : List KeyValueEntry} :
    ∀ {c1 c2 : ValidationContext}, Rel c1 c2 →
      Rel (dispatchEntries es c1) (dispatchEntries es c2) := by
  induction es with
  | nil => intro c1 c2 h; exact h
  | cons e rest ih => intro c1 c2 h; exact ih (Rel_dispatchEntry h)

end ktx

namespace ktx

theorem Rel_setFileIt {c1 c2 : ValidationContext} {x1 x2 : Nat}
    (h : Rel c1 c2) (hx : x1 = x2) :
    Rel { c1 with fileIt := x1 } { c2 with fileIt := x2 } := by
  subst hx
  obtain ⟨hc, f1, f2, r, e, w⟩ := h
  refine ⟨?_, f1, f2, r, e, w⟩
  simp only [core, CoreState.mk.injEq] at hc ⊢
  tauto

theorem INV_padZerosIf {P : Prop} [Decidable P] {kvd : List Nat} {off bufEnd alignment : Nat}
    {issue : Issue} {after : String} {c : ValidationContext}
    (ht : issue.type ≠ IssueType.warning) (h : INV c) :
    INV (if P then validatePaddingZeros kvd off bufEnd alignment issue after c else c) := by
  split
  · exact INV_validatePaddingZeros ht h
  · exact h

theorem Rel_padZerosIf {P : Prop} [Decidable P] {kvd : List Nat} {off bufEnd alignment : Nat}
    {issue : Issue} {after : String} {c1 c2 : ValidationContext}
    (ht : issue.type ≠ IssueType.warning) (h : Rel c1 c2) :
    Rel (if P then validatePaddingZeros kvd off bufEnd alignment issue after c1 else c1)
      (if P then validatePaddingZeros kvd off bufEnd alignment issue after c2 else c2) := by
  split
  · exact Rel_validatePaddingZeros ht h
  · exact h

theorem INV_scanLoop (k : List Nat) (L : Nat) :
    ∀ (fuel off n : Nat) (es : List KeyValueEntry) {c : ValidationContext}, INV c →
      INV (scanLoop k L fuel off n es c).1 := by
  intro fuel
  induction fuel with
  | zero => intro off n es c h; exact h
  | succ fuel ih =>
    intro off n es c h
    rw [scanLoop]
    by_cases h1 : off < L
    · rw [if_pos h1]
      by_cases h2 : n + 1 > MAX_NUM_KV_ENTRY
      · rw [if_pos h2]
        exact INV_error (by decide) h
      · rw [if_neg h2]
        by_cases h3 : L - off < 4
        · rw [if_pos h3]
          exact INV_errorIf (by decide) h
        · rw [if_neg h3]
          exact ih _ _ _ (INV_padLoop (by decide) _ _
            (INV_errorIf (by decide) (INV_errorIf (by decide) (INV_errorIf (by decide)
              (INV_errorIf (by decide) (INV_errorIf (by decide) h))))))
    · rw [if_neg h1]
      exact h

theorem Rel_scanLoop (k : List Nat) (L : Nat) :
    ∀ (fuel off n : Nat) (es : List KeyValueEntry) {c1 c2 : ValidationContext}, Rel c1 c2 →
      Rel (scanLoop k L fuel off n es c1).1 (scanLoop k L fuel off n es c2).1
      ∧ (scanLoop k L fuel off n es c1).2 = (scanLoop k L fuel off n es c2).2 := by
  intro fuel
  induction fuel with
  | zero => intro off n es c1 c2 h; exact ⟨h, rfl⟩
  | succ fuel ih =>
    intro off n es c1 c2 h
    rw [scanLoop, scanLoop]
    by_cases h1 : off < L
    · rw [if_pos h1, if_pos h1]
      by_cases h2 : n + 1 > MAX_NUM_KV_ENTRY
      · rw [if_pos h2, if_pos h2]
        exact ⟨Rel_error (by decide) h, rfl⟩
      · rw [if_neg h2, if_neg h2]
        by_cases h3 : L - off < 4
        · rw [if_pos h3, if_pos h3]
          exact ⟨Rel_errorIf (by decide) h, rfl⟩
        · rw [if_neg h3, if_neg h3]
          exact ih _ _ _ (Rel_padLoop (by decide) _ _
            (Rel_errorIf (by decide) (Rel_errorIf (by decide) (Rel_errorIf (by decide)
              (Rel_errorIf (by decide) (Rel_errorIf (by decide) h))))))
    · rw [if_neg h1, if_neg h1]
      exact ⟨h, rfl⟩

theorem INV_validateKVDCore {kvdOff kvdLen sgdLen : Nat} {c : ValidationContext}
    (h : INV c) : INVR (validateKVDCore kvdOff kvdLen sgdLen c) := by
  unfold validateKVDCore
  cases hs : seek_to kvdOff "the KVD" c with
  | error e =>
    simp only [hs, bind, Except.bind]
    have := INV_seek (t := kvdOff) (n := "the KVD") h
    rw [hs] at this
    exact this
  | ok c' =>
    have hc' : INV c' := by
      have := INV_seek (t := kvdOff) (n := "the KVD") h
      rw [hs] at this
      exact this
    simp only [hs, bind, Except.bind]
    split
    · exact hc'
    · cases hr : read kvdLen "the KVD" c' with
      | error e =>
        simp only [hr, bind, Except.bind]
        exact INV_read_error hr hc'
      | ok kvd =>
        simp only [hr, bind, Except.bind]
        rcases hA : scanLoop kvd kvdLen kvdLen 0 0 [] c' with ⟨cA, pA, eA⟩
        have hIA : INV cA := by
          have hx := INV_scanLoop kvd kvdLen kvdLen 0 0 [] hc'
          rw [hA] at hx
          exact hx
        simp only [hA]
        exact INV_runChecks (INV_dispatchEntries (INV_errorIf (by decide)
          (INV_errorIf (by decide) (INV_padZerosIf (by decide)
            (INV_errorIf (by decide) hIA)))))

theorem INV_validateKVD {c : ValidationContext} (h : INV c) : INVR (validateKVD c) :=
  INV_validateKVDCore h

theorem Rel_validateKVDCore {kvdOff kvdLen sgdLen : Nat} {c1 c2 : ValidationContext}
    (h : Rel c1 c2) :
    RelR (validateKVDCore kvdOff kvdLen sgdLen c1) (validateKVDCore kvdOff kvdLen sgdLen c2) := by
  have hd := fileData_congr h.1
  unfold validateKVDCore
  by_cases hs : kvdOff > c2.fileData.length
  · have e1 : seek_to kvdOff "the KVD" c1 = Except.error
        (fatalCtx IOError.UnexpectedEOFSeek
          (eofSeekDetails kvdOff "the KVD" c2.fileData.length) c1) := by
      simp [seek_to, fileSize, fatal, hd, hs]
    have e2 : seek_to kvdOff "the KVD" c2 = Except.error
        (fatalCtx IOError.UnexpectedEOFSeek
          (eofSeekDetails kvdOff "the KVD" c2.fileData.length) c2) := by
      simp [seek_to, fileSize, fatal, hs]
    rw [e1, e2]
    simp only [bind, Except.bind]
    exact Rel_fatalCtx (by decide) h
  · have e1 : seek_to kvdOff "the KVD" c1 = Except.ok { c1 with fileIt := kvdOff } := by
      simp [seek_to, fileSize, hd, hs]
    have e2 : seek_to kvdOff "the KVD" c2 = Except.ok { c2 with fileIt := kvdOff } := by
      simp [seek_to, fileSize, hs]
    rw [e1, e2]
    simp only [bind, Except.bind]
    have h' : Rel { c1 with fileIt := kvdOff } { c2 with fileIt := kvdOff } :=
      Rel_setFileIt h rfl
    split
    · exact h'
    · by_cases hr : kvdOff + kvdLen > c2.fileData.length
      · have r1 : read kvdLen "the KVD" { c1 with fileIt := kvdOff } = Except.error
            (fatalCtx IOError.UnexpectedEOF
              (eofDetails kvdLen "the KVD" (c2.fileData.length - kvdOff))
              { c1 with fileIt := kvdOff }) := by
          simp [read, fileSize, fatal, hd, hr]
        have r2 : read kvdLen "the KVD" { c2 with fileIt := kvdOff } = Except.error
            (fatalCtx IOError.UnexpectedEOF
              (eofDetails kvdLen "the KVD" (c2.fileData.length - kvdOff))
              { c2 with fileIt := kvdOff }) := by
          simp [read, fileSize, fatal, hr]
        rw [r1, r2]
        simp only [bind, Except.bind]
        exact Rel_fatalCtx (by decide) h'
      · have r1 : read kvdLen "the KVD" { c1 with fileIt := kvdOff } =
            Except.ok ((c2.fileData.drop kvdOff).take kvdLen) := by
          simp [read, fileSize, hd, hr]
        have r2 : read kvdLen "the KVD" { c2 with fileIt := kvdOff } =
            Except.ok ((c2.fileData.drop kvdOff).take kvdLen) := by
          simp [read, fileSize, hr]
        rw [r1, r2]
        simp only [bind, Except.bind]
        rcases hA : scanLoop ((c2.fileData.drop kvdOff).take kvdLen) kvdLen kvdLen 0 0 []
            { c1 with fileIt := kvdOff } with ⟨cA, pA, eA⟩
        rcases hB : scanLoop ((c2.fileData.drop kvdOff).take kvdLen) kvdLen kvdLen 0 0 []
            { c2 with fileIt := kvdOff } with ⟨cB, pB, eB⟩
        have hsl := Rel_scanLoop ((c2.fileData.drop kvdOff).take kvdLen) kvdLen
          kvdLen 0 0 [] h'
        rw [hA, hB] at hsl
        obtain ⟨hrelAB, hsnd⟩ := hsl
        simp only at hrelAB hsnd
        have hp : pA = pB := congrArg Prod.fst hsnd
        have he : eA = eB := congrArg Prod.snd hsnd
        subst hp
        subst he
        exact Rel_runChecks (Rel_dispatchEntries (Rel_errorIf (by decide)
          (Rel_errorIf (by decide) (Rel_padZerosIf (by decide)
            (Rel_errorIf (by decide) hrelAB)))))

theorem Rel_validateKVD {c1 c2 : ValidationContext} (h : Rel c1 c2) :
    RelR (validateKVD c1) (validateKVD c2) := by
  have hH := header_congr h.1
  unfold validateKVD
  rw [hH]
  exact Rel_validateKVDCore h

end ktx

namespace ktx

/-- The exit code of a run is 3 exactly when the error counter is
positive, on fatal and non-fatal paths alike. -/
theorem validate_spec {c0 : ValidationContext} (h : INV c0) :
    INV (validate c0).2
    ∧ (validate c0).1 = (if 0 < (validate c0).2.numError then 3 else 0) := by
  unfold validate
  cases hh : validateHeader c0 with
  | error e =>
    have hx := INV_validateHeader h
    rw [hh] at hx
    obtain ⟨hi, hp⟩ := hx
    dsimp only
    exact ⟨hi, by simp [hp]⟩
  | ok c1 =>
    have hx := INV_validateHeader h
    rw [hh] at hx
    have h2 : INV (validateIndices c1) := INV_validateIndices hx
    dsimp only
    cases hk : validateKVD (validateIndices c1) with
    | error e =>
      have hy := INV_validateKVD h2
      rw [hk] at hy
      obtain ⟨hi, hp⟩ := hy
      dsimp only
      exact ⟨hi, by simp [hp]⟩
    | ok c3 =>
      have hy := INV_validateKVD h2
      rw [hk] at hy
      dsimp only
      exact ⟨hy, rfl⟩

theorem Rel_validate {c1 c2 : ValidationContext} (h : Rel c1 c2) :
    Rel (validate c1).2 (validate c2).2 := by
  unfold validate
  have hR := Rel_validateHeader h
  cases hh1 : validateHeader c1 with
  | error e1 =>
    cases hh2 : validateHeader c2 with
    | error e2 =>
      rw [hh1, hh2] at hR
      exact hR
    | ok d2 =>
      rw [hh1, hh2] at hR
      exact hR.elim
  | ok d1 =>
    cases hh2 : validateHeader c2 with
    | error e2 =>
      rw [hh1, hh2] at hR
      exact hR.elim
    | ok d2 =>
      rw [hh1, hh2] at hR
      have hI : Rel (validateIndices d1) (validateIndices d2) := Rel_validateIndices hR
      have hK := Rel_validateKVD hI
      dsimp only
      cases hk1 : validateKVD (validateIndices d1) with
      | error e1 =>
        cases hk2 : validateKVD (validateIndices d2) with
        | error e2 =>
          rw [hk1, hk2] at hK
          exact hK
        | ok f2 =>
          rw [hk1, hk2] at hK
          exact hK.elim
      | ok f1 =>
        cases hk2 : validateKVD (validateIndices d2) with
        | error e2 =>
          rw [hk1, hk2] at hK
          exact hK.elim
        | ok f2 =>
          rw [hk1, hk2] at hK
          exact hK

theorem INV_initCtx (data : List Nat) (w : Bool) : INV (initCtx data w) := ⟨rfl, rfl⟩

theorem Rel_initCtx (data : List Nat) : Rel (initCtx data true) (initCtx data false) :=
  ⟨rfl, rfl, rfl, rfl, rfl, rfl⟩

end ktx

namespace ktx

theorem reports_error (i : Issue) (d : String) (c : ValidationContext) :
    (error i d c).reports = c.reports ++ [⟨i.type, i.id, i.message, d⟩] := rfl

theorem reports_warning (i : Issue) (d : String) (c : ValidationContext) :
    (warning i d c).reports = c.reports
      ++ [if c.treatWarningsAsError then ⟨IssueType.error, i.id, i.message, d⟩
          else ⟨i.type, i.id, i.message, d⟩] := by
  unfold warning
  split <;> simp_all

theorem countId_error (n : Nat) (i : Issue) (d : String) (c : ValidationContext) :
    countId n (error i d c).reports
      = countId n c.reports + (if i.id = n then 1 else 0) := by
  rw [reports_error, countId_append, countId_single]

theorem countId_warning (n : Nat) (i : Issue) (d : String) (c : ValidationContext) :
    countId n (warning i d c).reports
      = countId n c.reports + (if i.id = n then 1 else 0) := by
  rw [reports_warning, countId_append]
  split <;> rw [countId_single]

theorem countId_fatalCtx (n : Nat) (i : Issue) (d : String) (c : ValidationContext) :
    countId n (fatalCtx i d c).reports
      = countId n c.reports + (if i.id = n then 1 else 0) := by
  unfold fatalCtx
  show countId n (c.reports ++ [⟨i.type, i.id, i.message, d⟩]) = _
  rw [countId_append, countId_single]

theorem countId_applyCheck_ne {α : Type} {n : Nat} (a : α) {ch : Check α}
    {c : ValidationContext} (h : ch.issue.id ≠ n) :
    countId n (applyCheck a ch c).reports = countId n c.reports := by
  unfold applyCheck
  split
  · split
    · rw [countId_warning, if_neg h, Nat.add_zero]
    · rw [countId_error, if_neg h, Nat.add_zero]
  · rfl

theorem countId_applyCheck_eq {α : Type} {n : Nat} (a : α) {ch : Check α}
    {c : ValidationContext} (h : ch.issue.id = n) :
    countId n (applyCheck a ch c).reports
      = countId n c.reports + (if ch.cond a (core c) then 1 else 0) := by
  unfold applyCheck
  split
  · split
    · rw [countId_warning, if_pos h]
    · rw [countId_error, if_pos h]
  · simp_all

theorem countId_applyCheck {α : Type} (n : Nat) (a : α) {ch : Check α}
    {c : ValidationContext} :
    countId n (applyCheck a ch c).reports
      = countId n c.reports
        + (if ch.cond a (core c) = true ∧ ch.issue.id = n then 1 else 0) := by
  unfold applyCheck
  split
  · by_cases h2 : ch.issue.id = n
    · split
      · rw [countId_warning, if_pos h2, if_pos (by constructor <;> assumption)]
      · rw [countId_error, if_pos h2, if_pos (by constructor <;> assumption)]
    · split
      · rw [countId_warning, if_neg h2, if_neg (by tauto)]
      · rw [countId_error, if_neg h2, if_neg (by tauto)]
  · rw [if_neg (by tauto), Nat.add_zero]

theorem countId_runChecks_ne {α : Type} {n : Nat} (a : α) {cs : List (Check α)}
    (h : ∀ ch ∈ cs, ch.issue.id ≠ n) :
    ∀ (c : ValidationContext), countId n (runChecks a cs c).reports = countId n c.reports := by
  induction cs with
  | nil => intro c; rfl
  | cons ch rest ih =>
    intro c
    rw [runChecks, ih (fun x hx => h x (List.mem_cons_of_mem _ hx)),
      countId_applyCheck_ne a (h ch (List.mem_cons_self _ _))]

-- Projection preservation along the pure stages.

theorem runChecks_header {α : Type} (a : α) (cs : List (Check α)) (c : ValidationContext) :
    (runChecks a cs c).header = c.header :=
  congrArg CoreState.header (core_runChecks a cs c)

theorem runChecks_fileData {α : Type} (a : α) (cs : List (Check α)) (c : ValidationContext) :
    (runChecks a cs c).fileData = c.fileData :=
  congrArg CoreState.fileData (core_runChecks a cs c)

theorem runChecks_levelCount {α : Type} (a : α) (cs : List (Check α)) (c : ValidationContext) :
    (runChecks a cs c).levelCount = c.levelCount :=
  congrArg CoreState.levelCount (core_runChecks a cs c)

theorem setDimensionCount_header (c : ValidationContext) :
    (setDimensionCount c).header = c.header := rfl

theorem setLayerCount_header (c : ValidationContext) :
    (setLayerCount c).header = c.header := rfl

theorem setLevelCount_header (c : ValidationContext) :
    (setLevelCount c).header = c.header := rfl

theorem setDimensionCount_fileData (c : ValidationContext) :
    (setDimensionCount c).fileData = c.fileData := rfl

theorem setLayerCount_fileData (c : ValidationContext) :
    (setLayerCount c).fileData = c.fileData := rfl

theorem setLevelCount_fileData (c : ValidationContext) :
    (setLevelCount c).fileData = c.fileData := rfl

theorem setLevelCount_levelCount (c : ValidationContext) :
    (setLevelCount c).levelCount = max c.header.levelCount 1 := rfl

theorem headerChecks_header (c : ValidationContext) :
    (headerChecks c).header = c.header := by
  simp only [headerChecks]
  rw [runChecks_header, setLevelCount_header, runChecks_header, setLayerCount_header,
    setDimensionCount_header, runChecks_header, runChecks_header]

theorem headerChecks_fileData (c : ValidationContext) :
    (headerChecks c).fileData = c.fileData := by
  simp only [headerChecks]
  rw [runChecks_fileData, setLevelCount_fileData, runChecks_fileData, setLayerCount_fileData,
    setDimensionCount_fileData, runChecks_fileData, runChecks_fileData]

theorem headerChecks_levelCount (c : ValidationContext) :
    (headerChecks c).levelCount = max c.header.levelCount 1 := by
  simp only [headerChecks]
  rw [runChecks_levelCount, setLevelCount_levelCount, runChecks_header, setLayerCount_header,
    setDimensionCount_header, runChecks_header, runChecks_header]

theorem validateIndices_header (c : ValidationContext) :
    (validateIndices c).header = c.header := runChecks_header ..

theorem validateIndices_fileData (c : ValidationContext) :
    (validateIndices c).fileData = c.fileData := runChecks_fileData ..

end ktx

namespace ktx

theorem core_header (c : ValidationContext) : (core c).header = c.header := rfl

theorem core_levelCount_eq (c : ValidationContext) : (core c).levelCount = c.levelCount := rfl

theorem core_fileData_eq (c : ValidationContext) : (core c).fileData = c.fileData := rfl

theorem core_layerCount_eq (c : ValidationContext) : (core c).layerCount = c.layerCount := rfl

theorem setDimensionCount_reports (c : ValidationContext) :
    (setDimensionCount c).reports = c.reports := rfl

theorem setLayerCount_reports (c : ValidationContext) :
    (setLayerCount c).reports = c.reports := rfl

theorem setLevelCount_reports (c : ValidationContext) :
    (setLevelCount c).reports = c.reports := rfl

/-- `countId` characterisation of the mip-level check list: the
`TooManyMipLevels` count rises by one exactly when the (32-bit wrapped)
shift test fires; the other two checks in the list carry different ids. -/
theorem countId_levelScheme (c : ValidationContext) :
    countId HeaderData.TooManyMipLevels.id (runChecks () levelSchemeChecks c).reports
      = countId HeaderData.TooManyMipLevels.id c.reports
        + (if maxDim c.header < 2 ^ (c.levelCount - 1) % 2 ^ 32 then 1 else 0) := by
  simp only [levelSchemeChecks, runChecks]
  rw [countId_applyCheck_ne () (by decide), countId_applyCheck_ne () (by decide),
    countId_applyCheck HeaderData.TooManyMipLevels.id ()]
  simp [core]

end ktx

namespace ktx

set_option maxRecDepth 8000 in
/-- C1: the exit-code iff holds of the current `validateMemory` for every
input buffer and every setting of `warningsAsErrors` — it returns 0 iff no
error- or fatal-severity report was delivered, and 3 whenever at least one
was.  It is false of the cited legacy `validate`: the legacy sink counts a
warning toward `numError` when the flag is set but delivers the report
with its warning severity, so on a warnings-only input the legacy run
returns 3 although zero error- or fatal-severity reports were delivered. -/
theorem claim_C1 (data : List Nat) (w : Bool) :
    ((validateMemory data w).1 = 0
        ↔ countErrors (validateMemory data w).2.reports = 0)
    ∧ (0 < countErrors (validateMemory data w).2.reports
        → (validateMemory data w).1 = 3)
    ∧ (legacyValidateMemory legacyWarnFile true).1 = 3
    ∧ countErrors (legacyValidateMemory legacyWarnFile true).2.reports = 0
    ∧ countWarnings (legacyValidateMemory legacyWarnFile true).2.reports = 1 := by
  obtain ⟨⟨he1, -⟩, hc1⟩ := validate_spec (INV_initCtx data w)
  unfold validateMemory
  refine ⟨?_, ?_, by decide, by decide, by decide⟩
  · rw [hc1, ← he1]
    split <;> omega
  · rw [hc1, ← he1]
    intro hp
    rw [if_pos hp]

/-- Witness for C1 at a concrete input: the empty buffer aborts with a
fatal report, so the current pipeline's exit code is 3. -/
theorem claim_C1_witness :
    0 < countErrors (validateMemory [] false).2.reports
    ∧ (validateMemory [] false).1 = 3 :=
  ⟨by decide, (claim_C1 [] false).2.1 (by decide)⟩

set_option maxRecDepth 8000 in
/-- C6: on the current pipeline, with `warningsAsErrors` set the
delivered stream is the flag-free stream with every warning re-stamped to
error severity (same id, message and details), and those reports count
toward the error total that decides the exit code.  The cited legacy
implementation never re-stamps: on a warnings-only input with the flag set
it returns 3, yet the single delivered report keeps its warning severity —
the same severity-and-id stream the flag-free legacy run delivers. -/
theorem claim_C6 (data : List Nat) :
    ((validateMemory data true).2.reports
        = ((validateMemory data false).2.reports).map restampWarning)
    ∧ ((validateMemory data true).1
        = if 0 < countErrors (validateMemory data false).2.reports
              + countWarnings (validateMemory data false).2.reports then 3 else 0)
    ∧ ((legacyValidateMemory legacyWarnFile true).2.reports.map (fun r => (r.type, r.id))
        = [(IssueType.warning, 3003)])
    ∧ (legacyValidateMemory legacyWarnFile true).1 = 3
    ∧ ((legacyValidateMemory legacyWarnFile false).2.reports.map (fun r => (r.type, r.id))
        = [(IssueType.warning, 3003)]) := by
  obtain ⟨-, -, -, hrep1, hsum1, -⟩ := Rel_validate (Rel_initCtx data)
  obtain ⟨-, hcode1⟩ := validate_spec (INV_initCtx data true)
  obtain ⟨⟨hFe1, hFw1⟩, -⟩ := validate_spec (INV_initCtx data false)
  unfold validateMemory
  refine ⟨hrep1, ?_, by decide, by decide, by decide⟩
  rw [hcode1, hsum1, hFe1, hFw1]

end ktx

namespace ktx

/-- C2: the current reader raises the fatal `UnexpectedEOF` iff
`cursor + size` exceeds the buffer length, so an exactly-80-byte buffer
passes the initial header read, and every shorter buffer yields exactly
one fatal `UnexpectedEOF` report for "the header" and exit code 3.  The
legacy reader, however, raises the fatal already when `cursor + size`
*equals* the buffer length (`>=` comparison), so on the legacy pipeline an
exactly-80-byte buffer also aborts with the fatal `UnexpectedEOF` — the
two cited implementations disagree on the boundary case the claim fixes. -/
theorem claim_C2 :
    (∀ (sz : Nat) (m : String) (c : ValidationContext),
        (read sz m c).isOk = false ↔ c.fileData.length < c.fileIt + sz)
    ∧ (∀ (data : List Nat) (w : Bool), data.length = 80 →
        (read 80 "the header" (initCtx data w)).isOk = true)
    ∧ (∀ (data : List Nat) (w : Bool), data.length < 80 →
        (validateMemory data w).1 = 3
        ∧ (validateMemory data w).2.reports
            = [⟨IssueType.fatal, IOError.UnexpectedEOF.id, IOError.UnexpectedEOF.message,
                eofDetails 80 "the header" data.length⟩])
    ∧ (∀ (sz : Nat) (m : String) (c : ValidationContext),
        (legacyRead sz m c).isOk = false ↔ c.fileData.length ≤ c.fileIt + sz)
    ∧ (∀ w : Bool, (legacyValidateMemory (List.replicate 80 0) w).1 = 3
        ∧ (legacyValidateMemory (List.replicate 80 0) w).2.reports.map
            (fun r => (r.type, r.id)) = [(IssueType.fatal, 1003)]) := by
  refine ⟨?_, ?_, ?_, ?_, ?_⟩
  · intro sz m c
    unfold read
    split
    · simp only [fatal, Except.isOk, Except.toBool]
      constructor
      · intro _
        simp only [fileSize] at *
        omega
      · intro _
        trivial
    · simp only [Except.isOk, Except.toBool]
      constructor
      · intro h2
        cases h2
      · intro h2
        simp only [fileSize] at *
        omega
  · intro data w h
    unfold read
    rw [if_neg (by simp [initCtx, fileSize, h])]
    rfl
  · intro data w h
    have hr : read 80 "the header" (initCtx data w)
        = Except.error (fatalCtx IOError.UnexpectedEOF
            (eofDetails 80 "the header" data.length) (initCtx data w)) := by
      unfold read
      rw [if_pos (by simp [initCtx, fileSize]; omega)]
      simp [fatal, initCtx, fileSize]
    have hv : validateMemory data w
        = (3, fatalCtx IOError.UnexpectedEOF
            (eofDetails 80 "the header" data.length) (initCtx data w)) := by
      unfold validateMemory validate validateHeader
      rw [hr]
      rfl
    rw [hv]
    exact ⟨rfl, rfl⟩
  · intro sz m c
    unfold legacyRead
    split
    · simp only [fatal, Except.isOk, Except.toBool]
      constructor
      · intro _
        simp only [fileSize] at *
        omega
      · intro _
        trivial
    · simp only [Except.isOk, Except.toBool]
      constructor
      · intro h2
        cases h2
      · intro h2
        simp only [fileSize] at *
        omega
  · intro w
    cases w <;> exact ⟨by decide, by decide⟩

/-- Witness for C2: the 80-byte all-zero buffer satisfies the reader-level
part of the claim on the current pipeline, and the empty buffer the
short-buffer part. -/
theorem claim_C2_witness :
    ((List.replicate 80 0).length = 80
      ∧ (read 80 "the header" (initCtx (List.replicate 80 0) false)).isOk = true)
    ∧ (([] : List Nat).length < 80 ∧ (validateMemory [] false).1 = 3) :=
  ⟨⟨by decide, claim_C2.2.1 (List.replicate 80 0) false (by decide)⟩,
   ⟨by decide, (claim_C2.2.2.1 ([] : List Nat) false (by decide)).1⟩⟩

end ktx

namespace ktx

set_option maxRecDepth 4000 in
/-- Counterexample to C3: on a minimal valid KTX2 input whose key/value
index has `byteLength = 0`, the run exits 0 but delivers *no* report at
all — in particular no `NoKTXwriter` (KTXwriterMissing) warning, contrary
to the claim. -/
theorem claim_C3_counterexample :
    (validateMemory minimalValidFile false).1 = 0
    ∧ countId Metadata.NoKTXwriter.id (validateMemory minimalValidFile false).2.reports = 0
    ∧ (validateMemory minimalValidFile false).2.reports = [] := by
  refine ⟨by decide, by decide, by decide⟩

set_option maxRecDepth 4000 in
/-- C3 (amended): when the key/value index has `byteLength = 0`,
`validateKVD` returns right after the seek, emitting nothing — the
missing-`KTXwriter` warning is skipped entirely; on the minimal valid
input the run exits 0 without any warning. -/
theorem claim_C3 :
    (∀ (o g : Nat) (c : ValidationContext), o ≤ fileSize c →
        validateKVDCore o 0 g c = Except.ok { c with fileIt := o })
    ∧ (validateMemory minimalValidFile false).1 = 0
    ∧ countId Metadata.NoKTXwriter.id (validateMemory minimalValidFile false).2.reports = 0 := by
  refine ⟨?_, by decide, by decide⟩
  intro o g c h
  unfold validateKVDCore seek_to
  rw [if_neg (by simp only [fileSize] at *; omega)]
  rfl

/-- Witness for C3 at a concrete state: seeking to offset 0 of the empty
buffer succeeds and the stage returns unchanged but for the cursor. -/
theorem claim_C3_witness :
    0 ≤ fileSize (initCtx [] false)
    ∧ validateKVDCore 0 0 0 (initCtx [] false)
        = Except.ok { (initCtx [] false) with fileIt := 0 } :=
  ⟨by decide, (claim_C3.1 0 0 (initCtx [] false) (by decide))⟩

/-- C4 is contradicted by the code: the source masks the value with
`0b00111111` *before* taking `popcount(value & 0b11000000)`, so the
popcount the checks branch on is always 0.  For the 1-byte value `0x3F`
(all six face bits set, claim's `p = 6`): the claim requires the
`AllBitSet` warning (p = 6), no `NoBitSet` error, and — with
`effectiveLayerCount = 1`, `1 % 6 ≠ 0` — the `IncompatibleLayerCount`
error; the code instead emits only the `NoBitSet` error. -/
theorem claim_C4 :
    popcount (0x3F &&& 0x3F) = 6
    ∧ countId Metadata.KTXcubemapIncompleteAllBitSet.id
        (validateKVCubemapIncomplete unitCtx (strBytes "KTXcubemapIncomplete") [0x3F] 1).reports
      = 0
    ∧ countId Metadata.KTXcubemapIncompleteNoBitSet.id
        (validateKVCubemapIncomplete unitCtx (strBytes "KTXcubemapIncomplete") [0x3F] 1).reports
      = 1
    ∧ unitCtx.layerCount = 1
    ∧ countId Metadata.KTXcubemapIncompleteIncompatibleLayerCount.id
        (validateKVCubemapIncomplete unitCtx (strBytes "KTXcubemapIncomplete") [0x3F] 1).reports
      = 0 := by
  refine ⟨by decide, by decide, by decide, by decide, by decide⟩

/-- C9 is contradicted by the code: in `validateKVOrientation` the
dimension-count and per-dimension character checks are commented out; the
only active test accepts any value whose size is between 3 and 5 and
rejects every other size with the `KTXorientationInvalidSize` error.  In
particular, for a 1-dimensional texture (`dimensionCount = 1`) the 2-byte
value "r\x00" — accepted by the claim — is rejected. -/
theorem claim_C9 :
    (∀ (c : ValidationContext) (k d : List Nat) (sz : Nat),
        3 ≤ sz → sz ≤ 5 → validateKVOrientation c k d sz = c)
    ∧ (∀ (c : ValidationContext) (k d : List Nat) (sz : Nat), sz < 3 ∨ 5 < sz →
        (validateKVOrientation c k d sz).reports
          = c.reports ++ [⟨IssueType.error, Metadata.KTXorientationInvalidSize.id,
              Metadata.KTXorientationInvalidSize.message, toString sz⟩])
    ∧ unitCtx.dimensionCount = 1
    ∧ ((validateKVOrientation unitCtx (strBytes "KTXorientation") [114, 0] 2).reports.map
        (fun r => r.id) = [Metadata.KTXorientationInvalidSize.id]) := by
  refine ⟨?_, ?_, by decide, by decide⟩
  · intro c k d sz h1 h2
    unfold validateKVOrientation
    rw [if_neg (by omega)]
  · intro c k d sz h
    unfold validateKVOrientation
    rw [if_pos h, reports_error]
    rfl

/-- Witness for C9: size 3 is accepted unchanged, size 2 is rejected with
the size error. -/
theorem claim_C9_witness :
    ((3 : Nat) ≤ 3 ∧ (3 : Nat) ≤ 5
      ∧ validateKVOrientation unitCtx [] [] 3 = unitCtx)
    ∧ ((2 : Nat) < 3 ∨ (5 : Nat) < 2)
    ∧ (validateKVOrientation unitCtx [] [] 2).reports
        = unitCtx.reports ++ [⟨IssueType.error, Metadata.KTXorientationInvalidSize.id,
            Metadata.KTXorientationInvalidSize.message, toString 2⟩] :=
  ⟨⟨by decide, by decide, claim_C9.1 unitCtx [] [] 3 (by decide) (by decide)⟩,
   Or.inl (by decide),
   claim_C9.2.1 unitCtx [] [] 2 (Or.inl (by decide))⟩

end ktx

namespace ktx

theorem countId_headerChecks_ne {n : Nat} (c : ValidationContext)
    (h1 : ∀ ch ∈ vkFormatChecks, ch.issue.id ≠ n)
    (h2 : ∀ ch ∈ dimensionChecks, ch.issue.id ≠ n)
    (h3 : ∀ ch ∈ faceLevelChecks, ch.issue.id ≠ n)
    (h4 : ∀ ch ∈ levelSchemeChecks, ch.issue.id ≠ n) :
    countId n (headerChecks c).reports = countId n c.reports := by
  simp only [headerChecks]
  rw [countId_runChecks_ne () h4, setLevelCount_reports, countId_runChecks_ne () h3,
    setLayerCount_reports, setDimensionCount_reports, countId_runChecks_ne () h2,
    countId_runChecks_ne () h1]

theorem countId_validateIndices_ne {n : Nat} (c : ValidationContext)
    (h : ∀ ch ∈ indexChecks, ch.issue.id ≠ n) :
    countId n (validateIndices c).reports = countId n c.reports := by
  unfold validateIndices
  rw [countId_runChecks_ne () h]

/-- C10: on any well-magicked input whose key/value index has
`byteLength = 0` but `byteOffset` beyond the end of the file, the KVD
stage does not return quietly: `validateKVD` seeks to the offset before
testing the length, the seek raises the fatal `UnexpectedEOFSeek`, the
report is delivered exactly once, and validation exits with code 3. -/
theorem claim_C10 (data : List Nat) (w : Bool)
    (h80 : 80 ≤ data.length)
    (hmagic : (parseHeader (data.take 80)).identifier = ktx2_identifier_reference)
    (hlen : (parseHeader (data.take 80)).keyValueData.byteLength = 0)
    (hoff : data.length < (parseHeader (data.take 80)).keyValueData.byteOffset) :
    (validateMemory data w).1 = 3
    ∧ countId IOError.UnexpectedEOFSeek.id (validateMemory data w).2.reports = 1 := by
  have hread : read 80 "the header" (initCtx data w) = Except.ok (data.take 80) := by
    unfold read
    rw [if_neg (by simp only [initCtx, fileSize]; omega)]
    simp [initCtx]
  have hvh : validateHeader (initCtx data w)
      = Except.ok (headerChecks
          { initCtx data w with header := parseHeader (data.take 80) }) := by
    unfold validateHeader
    rw [hread]
    simp only [bind, Except.bind]
    split
    · rename_i hcond
      exact absurd hmagic hcond
    · rfl
  have hh2 : (validateIndices (headerChecks
        { initCtx data w with header := parseHeader (data.take 80) })).header
      = parseHeader (data.take 80) := by
    rw [validateIndices_header, headerChecks_header]
  have hf2 : (validateIndices (headerChecks
        { initCtx data w with header := parseHeader (data.take 80) })).fileData
      = data := by
    rw [validateIndices_fileData, headerChecks_fileData]
    rfl
  have hkvd : validateKVD (validateIndices (headerChecks
        { initCtx data w with header := parseHeader (data.take 80) }))
      = Except.error (fatalCtx IOError.UnexpectedEOFSeek
          (eofSeekDetails (parseHeader (data.take 80)).keyValueData.byteOffset "the KVD"
            data.length)
          (validateIndices (headerChecks
            { initCtx data w with header := parseHeader (data.take 80) }))) := by
    unfold validateKVD validateKVDCore seek_to fileSize
    rw [hh2, hf2, if_pos hoff]
    rfl
  unfold validateMemory validate
  rw [hvh]
  dsimp only
  rw [hkvd]
  dsimp only
  refine ⟨rfl, ?_⟩
  rw [countId_fatalCtx, if_pos rfl,
    countId_validateIndices_ne _ (by decide),
    countId_headerChecks_ne _ (by decide) (by decide) (by decide) (by decide)]
  rfl

/-- Witness for C10: the concrete 80-byte header whose KVD index claims
offset 96 with length 0 aborts with a single `UnexpectedEOFSeek`. -/
theorem claim_C10_witness :
    (80 ≤ kvdSeekFile.length
      ∧ (parseHeader (kvdSeekFile.take 80)).identifier = ktx2_identifier_reference
      ∧ (parseHeader (kvdSeekFile.take 80)).keyValueData.byteLength = 0
      ∧ kvdSeekFile.length < (parseHeader (kvdSeekFile.take 80)).keyValueData.byteOffset)
    ∧ (validateMemory kvdSeekFile false).1 = 3
    ∧ countId IOError.UnexpectedEOFSeek.id (validateMemory kvdSeekFile false).2.reports = 1 :=
  ⟨⟨by decide, by decide, by decide, by decide⟩,
   (claim_C10 kvdSeekFile false (by decide) (by decide) (by decide) (by decide)).1,
   (claim_C10 kvdSeekFile false (by decide) (by decide) (by decide) (by decide)).2⟩

end ktx

namespace ktx

set_option maxRecDepth 4000 in
/-- Counterexample to C5: a header with `levelCount = 33` and maximum
dimension 4.  Over exact integers `4 < 2^(33-1)`, so the claim requires
`TooManyMipLevels`; but the code computes the shift in 32-bit arithmetic,
`2^32` wraps to 0, the comparison `4 < 0` is false and no such report is
delivered. -/
theorem claim_C5_counterexample :
    max (parseHeader (levels33File.take 80)).levelCount 1 = 33
    ∧ maxDim (parseHeader (levels33File.take 80)) = 4
    ∧ (4 : Nat) < 2 ^ (33 - 1)
    ∧ countId HeaderData.TooManyMipLevels.id
        (validateMemory levels33File false).2.reports = 0 := by
  refine ⟨by decide, by decide, by decide, by decide⟩

/-- C5 (amended): the `TooManyMipLevels` test is computed with the shift
reduced modulo `2^32`; whenever the effective level count is at most 32
(so the shift does not wrap) the header checks emit the error exactly when
`max_dim < 2^(effectiveLevelCount - 1)` over exact integers, as the claim
says — the claim's extension to `effectiveLevelCount ≥ 33` is what fails. -/
theorem claim_C5 (c : ValidationContext) (h : max c.header.levelCount 1 ≤ 32) :
    countId HeaderData.TooManyMipLevels.id (headerChecks c).reports
      = countId HeaderData.TooManyMipLevels.id c.reports
        + (if maxDim c.header < 2 ^ (max c.header.levelCount 1 - 1) then 1 else 0) := by
  simp only [headerChecks]
  rw [countId_levelScheme, setLevelCount_reports, countId_runChecks_ne () (by decide),
    setLayerCount_reports, setDimensionCount_reports, countId_runChecks_ne () (by decide),
    countId_runChecks_ne () (by decide)]
  rw [setLevelCount_header, setLevelCount_levelCount, runChecks_header, setLayerCount_header,
    setDimensionCount_header, runChecks_header, runChecks_header]
  have hm : 2 ^ (max c.header.levelCount 1 - 1) % 2 ^ 32
      = 2 ^ (max c.header.levelCount 1 - 1) :=
    Nat.mod_eq_of_lt (Nat.pow_lt_pow_right one_lt_two (by omega))
  rw [hm]

/-- Witness for C5 at a concrete state: one level, 1x1 — the condition
`1 < 2^0` is false and no `TooManyMipLevels` is emitted. -/
theorem claim_C5_witness :
    max unitCtx.header.levelCount 1 ≤ 32
    ∧ countId HeaderData.TooManyMipLevels.id (headerChecks unitCtx).reports
        = countId HeaderData.TooManyMipLevels.id unitCtx.reports
          + (if maxDim unitCtx.header < 2 ^ (max unitCtx.header.levelCount 1 - 1)
              then 1 else 0) :=
  ⟨by decide, claim_C5 unitCtx (by decide)⟩

end ktx

namespace ktx

/-- C8: with the member `levelCount` derived from the header as
`max(levelCount, 1)` (as `validateHeader` leaves it), the index validator
emits `IndexDFDContinuity` iff the DFD offset differs from
`align_up(headerSize + 16 * effectiveLevelCount, 4)`, `IndexKVDContinuity`
iff the KVD region is present and its offset differs from the aligned end
of the expected DFD region, and `IndexSGDContinuity` iff the SGD region is
present and its offset differs from the 8-aligned end of the previous
present region. -/
theorem claim_C8 (c : ValidationContext) (h : c.levelCount = max c.header.levelCount 1) :
    (countId HeaderData.IndexDFDContinuity.id (validateIndices c).reports
        = countId HeaderData.IndexDFDContinuity.id c.reports
          + (if expectedDFDOffset (max c.header.levelCount 1)
                ≠ c.header.dataFormatDescriptor.byteOffset then 1 else 0))
    ∧ (countId HeaderData.IndexKVDContinuity.id (validateIndices c).reports
        = countId HeaderData.IndexKVDContinuity.id c.reports
          + (if c.header.keyValueData.byteLength ≠ 0
                ∧ expectedKVDOffset (max c.header.levelCount 1)
                    c.header.dataFormatDescriptor.byteLength
                  ≠ c.header.keyValueData.byteOffset then 1 else 0))
    ∧ (countId HeaderData.IndexSGDContinuity.id (validateIndices c).reports
        = countId HeaderData.IndexSGDContinuity.id c.reports
          + (if c.header.supercompressionGlobalData.byteLength ≠ 0
                ∧ expectedSGDOffset (max c.header.levelCount 1)
                    c.header.dataFormatDescriptor.byteLength
                    c.header.keyValueData.byteLength
                  ≠ c.header.supercompressionGlobalData.byteOffset then 1 else 0)) := by
  refine ⟨?_, ?_, ?_⟩
  · unfold validateIndices
    simp only [indexChecks, runChecks]
    rw [countId_applyCheck_ne () (by decide), countId_applyCheck_ne () (by decide),
      countId_applyCheck HeaderData.IndexDFDContinuity.id (),
      countId_applyCheck_ne () (by decide), countId_applyCheck_ne () (by decide),
      countId_applyCheck_ne () (by decide), countId_applyCheck_ne () (by decide),
      countId_applyCheck_ne () (by decide), countId_applyCheck_ne () (by decide),
      countId_applyCheck_ne () (by decide), countId_applyCheck_ne () (by decide),
      countId_applyCheck_ne () (by decide), countId_applyCheck_ne () (by decide),
      countId_applyCheck_ne () (by decide), countId_applyCheck_ne () (by decide)]
    simp only [core_applyCheck]
    simp [core, h]
  · unfold validateIndices
    simp only [indexChecks, runChecks]
    rw [countId_applyCheck_ne () (by decide),
      countId_applyCheck HeaderData.IndexKVDContinuity.id (),
      countId_applyCheck_ne () (by decide), countId_applyCheck_ne () (by decide),
      countId_applyCheck_ne () (by decide), countId_applyCheck_ne () (by decide),
      countId_applyCheck_ne () (by decide), countId_applyCheck_ne () (by decide),
      countId_applyCheck_ne () (by decide), countId_applyCheck_ne () (by decide),
      countId_applyCheck_ne () (by decide), countId_applyCheck_ne () (by decide),
      countId_applyCheck_ne () (by decide), countId_applyCheck_ne () (by decide),
      countId_applyCheck_ne () (by decide)]
    simp only [core_applyCheck]
    simp [core, h]
  · unfold validateIndices
    simp only [indexChecks, runChecks]
    rw [countId_applyCheck HeaderData.IndexSGDContinuity.id (),
      countId_applyCheck_ne () (by decide), countId_applyCheck_ne () (by decide),
      countId_applyCheck_ne () (by decide), countId_applyCheck_ne () (by decide),
      countId_applyCheck_ne () (by decide), countId_applyCheck_ne () (by decide),
      countId_applyCheck_ne () (by decide), countId_applyCheck_ne () (by decide),
      countId_applyCheck_ne () (by decide), countId_applyCheck_ne () (by decide),
      countId_applyCheck_ne () (by decide), countId_applyCheck_ne () (by decide),
      countId_applyCheck_ne () (by decide), countId_applyCheck_ne () (by decide)]
    simp only [core_applyCheck]
    simp [core, h]

/-- Witness for C8 at a concrete state: one level, DFD at its expected
offset 96 — no `IndexDFDContinuity` is added. -/
theorem claim_C8_witness :
    indicesCtx.levelCount = max indicesCtx.header.levelCount 1
    ∧ countId HeaderData.IndexDFDContinuity.id (validateIndices indicesCtx).reports
        = countId HeaderData.IndexDFDContinuity.id indicesCtx.reports
          + (if expectedDFDOffset (max indicesCtx.header.levelCount 1)
                ≠ indicesCtx.header.dataFormatDescriptor.byteOffset then 1 else 0) :=
  ⟨by decide, (claim_C8 indicesCtx (by decide)).1⟩

end ktx

namespace ktx

set_option maxRecDepth 8000 in
/-- C7: the claim holds of the current validator — an unknown, not
prohibited vkFormat inside the gap `(VK_FORMAT_MAX_STANDARD_ENUM,
1000001000)` gets the `InvalidFormat` error and no `UnknownFormat`
warning.  It fails as a statement about both implementations: on the
concrete in-gap value 500 the current pipeline reports the error
`InvalidFormat` (3002), while the legacy pipeline reports the warning
`UnknownFormat` (3003) instead — its unsigned range test sends the whole
gap up to `0x10010000` to the warning. -/
theorem claim_C7 :
    (∀ c : ValidationContext,
        isProhibitedFormat c.header.vkFormat = false →
        isValidFormat c.header.vkFormat = false →
        VK_FORMAT_MAX_STANDARD_ENUM < c.header.vkFormat →
        c.header.vkFormat < 1000001000 →
        countId HeaderData.InvalidFormat.id (runChecks () vkFormatChecks c).reports
            = countId HeaderData.InvalidFormat.id c.reports + 1
          ∧ countId HeaderData.UnknownFormat.id (runChecks () vkFormatChecks c).reports
            = countId HeaderData.UnknownFormat.id c.reports)
    ∧ ((validateMemory format500File false).2.reports.map (fun r => (r.type, r.id))).filter
          (fun p => p.2 == 3002 || p.2 == 3003) = [(IssueType.error, 3002)]
    ∧ ((legacyValidateMemory format500File false).2.reports.map (fun r => (r.type, r.id))).filter
          (fun p => p.2 == 3002 || p.2 == 3003) = [(IssueType.warning, 3003)] := by
  refine ⟨?_, by decide, by decide⟩
  intro c hp hv h1 h2
  have h1' : (184 : Nat) < c.header.vkFormat := h1
  have hlt : c.header.vkFormat < 2 ^ 31 := by
    have hx : (1000001000 : Nat) < 2 ^ 31 := by norm_num
    omega
  have hsv : vkFormatSigned c.header.vkFormat = (c.header.vkFormat : Int) := by
    unfold vkFormatSigned
    rw [if_pos hlt]
  have e2 : (!isProhibitedFormat c.header.vkFormat && !isValidFormat c.header.vkFormat
      && decide (vkFormatSigned c.header.vkFormat ≤ (VK_FORMAT_MAX_STANDARD_ENUM : Int)))
      = false := by
    rw [hp, hv, hsv]
    simp only [Bool.not_false, Bool.true_and, decide_eq_false_iff_not,
      VK_FORMAT_MAX_STANDARD_ENUM]
    push_cast
    omega
  have e3 : (!isProhibitedFormat c.header.vkFormat && !isValidFormat c.header.vkFormat
      && decide ((VK_FORMAT_MAX_STANDARD_ENUM : Int) < vkFormatSigned c.header.vkFormat)
      && decide (vkFormatSigned c.header.vkFormat < 1000001000)) = true := by
    rw [hp, hv, hsv]
    simp only [Bool.not_false, Bool.true_and, Bool.and_eq_true, decide_eq_true_eq,
      VK_FORMAT_MAX_STANDARD_ENUM]
    constructor <;> (push_cast; omega)
  have e4 : (!isProhibitedFormat c.header.vkFormat && !isValidFormat c.header.vkFormat
      && decide ((1000001000 : Int) ≤ vkFormatSigned c.header.vkFormat)) = false := by
    rw [hp, hv, hsv]
    simp only [Bool.not_false, Bool.true_and, decide_eq_false_iff_not]
    omega
  have e5 : (decide (vkFormatSigned c.header.vkFormat < 0)) = false := by
    rw [hsv]
    simp only [decide_eq_false_iff_not]
    omega
  constructor
  · simp only [vkFormatChecks, runChecks]
    rw [countId_applyCheck_ne () (by decide),
      countId_applyCheck HeaderData.InvalidFormat.id (),
      countId_applyCheck_ne () (by decide),
      countId_applyCheck HeaderData.InvalidFormat.id (),
      countId_applyCheck HeaderData.InvalidFormat.id (),
      countId_applyCheck_ne () (by decide)]
    simp only [core_applyCheck]
    dsimp only [core]
    rw [e2, e3, e5]
    simp
  · simp only [vkFormatChecks, runChecks]
    rw [countId_applyCheck_ne () (by decide), countId_applyCheck_ne () (by decide),
      countId_applyCheck HeaderData.UnknownFormat.id (),
      countId_applyCheck_ne () (by decide), countId_applyCheck_ne () (by decide),
      countId_applyCheck_ne () (by decide)]
    simp only [core_applyCheck]
    dsimp only [core]
    rw [e4]
    simp

/-- Witness for C7 at the in-gap value 500: the current format checks add
exactly one `InvalidFormat` error. -/
theorem claim_C7_witness :
    (isProhibitedFormat gapFormatCtx.header.vkFormat = false
      ∧ isValidFormat gapFormatCtx.header.vkFormat = false
      ∧ VK_FORMAT_MAX_STANDARD_ENUM < gapFormatCtx.header.vkFormat
      ∧ gapFormatCtx.header.vkFormat < 1000001000)
    ∧ countId HeaderData.InvalidFormat.id (runChecks () vkFormatChecks gapFormatCtx).reports
        = countId HeaderData.InvalidFormat.id gapFormatCtx.reports + 1 :=
  ⟨⟨by decide, by decide, by decide, by decide⟩,
   (claim_C7.1 gapFormatCtx (by decide) (by decide) (by decide) (by decide)).1⟩

end ktx
